import Mathlib

/-!
# Power-off alarm of healthd (`healthd/healthd_msm_alarm.cpp`)

A shallow embedding of the four functions of the file

* `alarm_get_time`                  (RTC Reader),
* `alarm_is_alm_expired`            (Alarm Expiry Validator),
* `alarm_set_reboot_time_and_wait`  (Wake Timer Driver),
* `alarm_thread`                    (Alarm Orchestrator),

followed by the properties proved about them.

## Modelling conventions

* The program is sequential and its only inputs are the results of the system
  calls it makes.  A `World` gives, for the n-th result-bearing system call of
  a run (`open`, `ioctl`), what the kernel answers: the return value, the value
  left in `errno` when the call fails, and the contents written through the
  out-pointer (`struct tm` for the RTC requests, `struct timespec` for the
  elapsed-realtime request).  Every world is admitted: the theorems quantify
  over all of them.
* Every system call is appended to `State.trace`, so that what the program did
  (which device was opened, what was armed, how often it waited, whether a
  reboot was requested) can be read off the final state.
* `time_t` and `int` values are mathematical integers (`Int`).  Signed overflow
  is undefined behaviour in C++ and is outside the model.
* `mktime` is libc code and is a parameter: it returns the epoch value and the
  normalised record (libc fills in `tm_gmtoff`), whose `tm_gmtoff` is the
  offset added on line 88.
* The `do … while` loop of the driver may run for ever; it is given a `fuel`
  bound on its iterations.  A run that exhausts the fuel yields `none`
  together with the state (and trace) reached so far.
* Logging (`LOGE`, `LOGI`) has no effect on the control flow and is left out.
-/

set_option autoImplicit false

namespace HealthdAlarm

/-! ## Data -/

/-- The integer fields of `struct tm` (`tm_zone` is never read). -/
structure Tm where
  tm_sec : Int
  tm_min : Int
  tm_hour : Int
  tm_mday : Int
  tm_mon : Int
  tm_year : Int
  tm_wday : Int
  tm_yday : Int
  tm_isdst : Int
  tm_gmtoff : Int
  deriving DecidableEq

/-- The two fields of `struct timespec`. -/
structure Timespec where
  tv_sec : Int
  tv_nsec : Int
  deriving DecidableEq

/-- The enumeration `alarm_time_type` (lines 43-46). -/
inductive alarm_time_type
  | ALARM_TIME
  | RTC_TIME
  deriving DecidableEq

/-- The `ioctl` requests used by the file.  The two `ANDROID_ALARM_*` requests
are always built for `ANDROID_ALARM_ELAPSED_REALTIME_WAKEUP`. -/
inductive Cmd
  | RTC_ALM_READ
  | RTC_RD_TIME
  | ANDROID_ALARM_GET_TIME
  | ANDROID_ALARM_SET
  | ANDROID_ALARM_WAIT
  deriving DecidableEq

/-- The first argument of `android_reboot`. -/
inductive RebootCmd
  | ANDROID_RB_RESTART2
  deriving DecidableEq

/-- One observable action of the program. -/
inductive Event
  /-- The call `open(path, O_RDWR)` returned `ret`. -/
  | open_ (path : String) (ret : Int)
  /-- The call `ioctl(fd, cmd, arg)` returned `rc`; `arg` is the value passed in
  through the pointer, when the request reads it (`ANDROID_ALARM_SET`). -/
  | ioctl (fd : Int) (cmd : Cmd) (arg : Option Timespec) (rc : Int)
  /-- The call `close(fd)`. -/
  | close (fd : Int)
  /-- The call `android_reboot(cmd, flags, reason)`. -/
  | android_reboot (cmd : RebootCmd) (flags : Int) (reason : String)
  deriving DecidableEq

/-- What the kernel answers to one system call. -/
structure Resp where
  /-- Return value of the call. -/
  rc : Int
  /-- Value of `errno` left by the call when it fails. -/
  errno : Int
  /-- Record written through the pointer by an RTC request. -/
  tm : Tm
  /-- Record written through the pointer by `ANDROID_ALARM_GET_TIME`. -/
  ts : Timespec
  deriving DecidableEq

/-- The environment of a run: the answer to the n-th system call. -/
abbrev World := Nat → Resp

/-- The libc function `mktime`: the returned epoch value and the normalised
record it leaves behind. -/
abbrev Mktime := Tm → Int × Tm

/-- The `time_t` objects whose address is passed to `alarm_get_time`: the static
`alm_secs` (line 52), the local `rtc_secs` of `alarm_thread` (line 166) and the
local `rtc_secs` of `alarm_is_alm_expired` (line 106). -/
inductive TimeVar
  | alm_secs
  | thread_rtc_secs
  | expired_rtc_secs
  deriving DecidableEq

/-- Program state together with the history of the run. -/
structure State where
  /-- The static `alm_secs`. -/
  alm_secs : Int
  /-- The local `rtc_secs` of `alarm_thread`. -/
  thread_rtc_secs : Int
  /-- The local `rtc_secs` of `alarm_is_alm_expired`. -/
  expired_rtc_secs : Int
  /-- The thread's `errno`. -/
  errno : Int
  /-- Number of result-bearing system calls made so far. -/
  calls : Nat
  /-- System calls made so far, oldest first. -/
  trace : List Event
  deriving DecidableEq

/-- Reading `*p`. -/
def State.load (st : State) : TimeVar → Int
  | .alm_secs => st.alm_secs
  | .thread_rtc_secs => st.thread_rtc_secs
  | .expired_rtc_secs => st.expired_rtc_secs

/-- The assignment `*p = v`. -/
def State.store (st : State) (p : TimeVar) (v : Int) : State :=
  match p with
  | .alm_secs => { st with alm_secs := v }
  | .thread_rtc_secs => { st with thread_rtc_secs := v }
  | .expired_rtc_secs => { st with expired_rtc_secs := v }

/-- The value of `EINTR` in `errno.h`. -/
def EINTR : Int := 4

/-- The constant `ERR_SECS` (line 102). -/
def ERR_SECS : Int := 2

/-! ## System calls -/

/-- The state after a result-bearing system call answered by `r` and recorded
as `ev`: a failing call sets `errno`. -/
def State.after (st : State) (r : Resp) (ev : Event) : State :=
  { st with
    errno := if r.rc < 0 then r.errno else st.errno
    calls := st.calls + 1
    trace := st.trace ++ [ev] }

/-- The call `open(path, O_RDWR)`: the descriptor (or a negative value) and the
new state. -/
def sys_open (w : World) (path : String) (st : State) : Int × State :=
  ((w st.calls).rc, st.after (w st.calls) (Event.open_ path (w st.calls).rc))

/-- The call `ioctl(fd, cmd, arg)`: the kernel's answer and the new state. -/
def sys_ioctl (w : World) (fd : Int) (cmd : Cmd) (arg : Option Timespec) (st : State) :
    Resp × State :=
  (w st.calls, st.after (w st.calls) (Event.ioctl fd cmd arg (w st.calls).rc))

/-- The call `close(fd)`; its result is discarded by every caller. -/
def sys_close (fd : Int) (st : State) : State :=
  { st with trace := st.trace ++ [Event.close fd] }

/-- The call `android_reboot(cmd, flags, reason)`; its result is discarded. -/
def android_reboot (cmd : RebootCmd) (flags : Int) (reason : String) (st : State) : State :=
  { st with trace := st.trace ++ [Event.android_reboot cmd flags reason] }

/-! ## The four functions -/

/-- The function `alarm_get_time` (lines 54-100).  `secs = none` is the null
pointer.  The `default:` branch of the `switch` cannot be taken for a value of
the enumeration. -/
def alarm_get_time (w : World) (mktime : Mktime) (time_type : alarm_time_type)
    (secs : Option TimeVar) (st : State) : Int × State :=
  match secs with
  | none => (-1, st)
  | some p =>
    let o := sys_open w "/dev/rtc0" st
    let fd := o.1
    if fd < 0 then (-1, o.2)
    else
      let cmd := match time_type with
        | .ALARM_TIME => Cmd.RTC_ALM_READ
        | .RTC_TIME => Cmd.RTC_RD_TIME
      let i := sys_ioctl w fd cmd none o.2
      if i.1.rc < 0 then (-1, sys_close fd i.2)
      else
        let m := mktime i.1.tm
        let st3 := i.2.store p (m.1 + m.2.tm_gmtoff)
        if st3.load p < 0 then (-1, sys_close fd st3)
        else (0, sys_close fd st3)

/-- The function `alarm_is_alm_expired` (lines 103-114). -/
def alarm_is_alm_expired (w : World) (mktime : Mktime) (st : State) : Int × State :=
  let g := alarm_get_time w mktime .RTC_TIME (some .expired_rtc_secs) st
  if g.1 < 0 then (0, g.2)
  else if g.2.alm_secs ≥ g.2.expired_rtc_secs - ERR_SECS ∧
      g.2.alm_secs ≤ g.2.expired_rtc_secs + ERR_SECS then (1, g.2)
  else (0, g.2)

/-- The loop of lines 146-148,
`do { rc = ioctl(fd, ANDROID_ALARM_WAIT); }
 while ((rc < 0 && errno == EINTR) || !alarm_is_alm_expired());`
run for at most `fuel` iterations.  The result is `some rc` when the loop is
left, `none` when the iterations are used up. -/
def wait_loop (w : World) (mktime : Mktime) (fd : Int) : Nat → State → Option Int × State
  | 0, st => (none, st)
  | fuel + 1, st =>
    let i := sys_ioctl w fd Cmd.ANDROID_ALARM_WAIT none st
    if i.1.rc < 0 ∧ i.2.errno = EINTR then wait_loop w mktime fd fuel i.2
    else
      let e := alarm_is_alm_expired w mktime i.2
      if e.1 = 0 then wait_loop w mktime fd fuel e.2
      else (some i.1.rc, e.2)

/-- The label `err:` of `alarm_set_reboot_time_and_wait` (lines 158-161). -/
def driver_err (fd : Int) (st : State) : Option Int × State :=
  if fd ≥ 0 then (some (-1), sys_close fd st) else (some (-1), st)

/-- The function `alarm_set_reboot_time_and_wait` (lines 116-162), its loop
bounded by `fuel`. -/
def alarm_set_reboot_time_and_wait (w : World) (mktime : Mktime) (fuel : Nat) (secs : Int)
    (st : State) : Option Int × State :=
  let o := sys_open w "/dev/alarm" st
  let fd := o.1
  if fd < 0 then driver_err fd o.2
  else
    let g := sys_ioctl w fd Cmd.ANDROID_ALARM_GET_TIME none o.2
    if g.1.rc < 0 then driver_err fd g.2
    else
      let ts : Timespec := { tv_sec := g.1.ts.tv_sec + secs, tv_nsec := 0 }
      let s := sys_ioctl w fd Cmd.ANDROID_ALARM_SET (some ts) g.2
      if s.1.rc < 0 then driver_err fd s.2
      else
        let l := wait_loop w mktime fd fuel s.2
        match l.1 with
        | none => (none, l.2)
        | some rc =>
          if rc ≤ 0 then driver_err fd l.2
          else (some 0, sys_close fd l.2)

/-- The function `alarm_thread` (lines 164-202).  The first component tells
whether the thread has returned (`false`: still inside the wait loop when the
fuel ran out). -/
def alarm_thread (w : World) (mktime : Mktime) (fuel : Nat) (st : State) : Bool × State :=
  let a := alarm_get_time w mktime .ALARM_TIME (some .alm_secs) st
  if a.1 < 0 ∨ a.2.alm_secs = 0 then (true, a.2)
  else
    let c := alarm_get_time w mktime .RTC_TIME (some .thread_rtc_secs) a.2
    if c.1 < 0 then (true, c.2)
    else
      let rb_secs := c.2.alm_secs - c.2.thread_rtc_secs
      if rb_secs ≤ 0 then (true, c.2)
      else
        let d := alarm_set_reboot_time_and_wait w mktime fuel rb_secs c.2
        match d.1 with
        | none => (false, d.2)
        | some rc =>
          if rc < 0 then (true, d.2)
          else (true, android_reboot RebootCmd.ANDROID_RB_RESTART2 0 "rtc" d.2)

/-! ## Observations used in the statements -/

/-- Outcome of `alarm_get_time(RTC_TIME, &rtc_secs)` as `alarm_is_alm_expired`
sees it: `none` when the call reports failure, otherwise the value left in its
local `rtc_secs`. -/
def read_current (w : World) (mktime : Mktime) (st : State) : Option Int :=
  let g := alarm_get_time w mktime .RTC_TIME (some .expired_rtc_secs) st
  if g.1 < 0 then none else some g.2.expired_rtc_secs

/-- The sum computed on line 88 for a record `tm` filled in by the device:
`mktime(&tm) + tm.tm_gmtoff`. -/
def epoch_plus_offset (mktime : Mktime) (tm : Tm) : Int :=
  (mktime tm).1 + (mktime tm).2.tm_gmtoff

/-- The events of one call of `alarm_get_time` with a non-null pointer, started
when `n` system calls have been answered. -/
def rtc_events (w : World) (time_type : alarm_time_type) (n : Nat) : List Event :=
  if (w n).rc < 0 then [Event.open_ "/dev/rtc0" (w n).rc]
  else
    [Event.open_ "/dev/rtc0" (w n).rc,
     Event.ioctl (w n).rc
       (match time_type with
        | .ALARM_TIME => Cmd.RTC_ALM_READ
        | .RTC_TIME => Cmd.RTC_RD_TIME) none (w (n + 1)).rc,
     Event.close (w n).rc]

/-- Whether an event is the request that reads the live clock register. -/
def Event.is_current_read : Event → Bool
  | .ioctl _ Cmd.RTC_RD_TIME _ _ => true
  | _ => false

/-- Whether an event is an `open` of the wake-alarm device. -/
def Event.is_alarm_open : Event → Bool
  | .open_ path _ => path == "/dev/alarm"
  | _ => false

/-- Whether an event is the request that arms the wake timer. -/
def Event.is_arm : Event → Bool
  | .ioctl _ Cmd.ANDROID_ALARM_SET _ _ => true
  | _ => false

/-- Whether an event is the blocking wait request. -/
def Event.is_wait : Event → Bool
  | .ioctl _ Cmd.ANDROID_ALARM_WAIT _ _ => true
  | _ => false

/-- Whether an event is a reboot request. -/
def Event.is_reboot : Event → Bool
  | .android_reboot _ _ _ => true
  | _ => false

/-- Whether an event touches neither the wake-alarm device nor the reboot
interface: no open of `/dev/alarm`, no arming, no wait, no reboot request. -/
def Event.is_rtc_only (e : Event) : Bool :=
  !e.is_alarm_open && !e.is_arm && !e.is_wait && !e.is_reboot

/-- The deadlines passed to the arming request, in the order of the calls. -/
def arms : List Event → List Timespec
  | [] => []
  | .ioctl _ Cmd.ANDROID_ALARM_SET (some ts) _ :: l => ts :: arms l
  | _ :: l => arms l

/-- The reason strings of the reboot requests, in the order of the calls. -/
def reboot_requests : List Event → List String
  | [] => []
  | .android_reboot _ _ reason :: l => reason :: reboot_requests l
  | _ :: l => reboot_requests l

/-- Handle bookkeeping along a list of events, starting with the handles `held`
(most recently opened first): a successful `open` acquires its descriptor, a
`close` must release the most recently acquired handle still held.  The result
is `none` when a `close` is issued for anything else. -/
def track (held : List Int) : List Event → Option (List Int)
  | [] => some held
  | .open_ _ fd :: l => if fd < 0 then track held l else track (fd :: held) l
  | .close fd :: l =>
    match held with
    | top :: rest => if top = fd then track rest l else none
    | [] => none
  | _ :: l => track held l

/-- The validator as the specification words it, with the reference passed
explicitly: a fresh read of the current RTC time; `false` when the read fails;
otherwise `true` exactly when `reference - 2 ≤ current ≤ reference + 2`. -/
def is_expired (w : World) (mktime : Mktime) (reference : Int) (st : State) : Bool × State :=
  let g := alarm_get_time w mktime .RTC_TIME (some .expired_rtc_secs) st
  match read_current w mktime st with
  | none => (false, g.2)
  | some current => (decide (reference - 2 ≤ current ∧ current ≤ reference + 2), g.2)

/-- The wait loop with the reference passed explicitly: the loop of the source
with `is_expired reference` in the place of `alarm_is_alm_expired`. -/
def wait_loop_ref (w : World) (mktime : Mktime) (reference : Int) (fd : Int) :
    Nat → State → Option Int × State
  | 0, st => (none, st)
  | fuel + 1, st =>
    let i := sys_ioctl w fd Cmd.ANDROID_ALARM_WAIT none st
    if i.1.rc < 0 ∧ i.2.errno = EINTR then wait_loop_ref w mktime reference fd fuel i.2
    else
      let e := is_expired w mktime reference i.2
      if e.1 = false then wait_loop_ref w mktime reference fd fuel e.2
      else (some i.1.rc, e.2)

/-- The first call of `alarm_thread`: the read of the alarm register into the
static `alm_secs`. -/
def thread_alarm_read (w : World) (mktime : Mktime) (st : State) : Int × State :=
  alarm_get_time w mktime .ALARM_TIME (some .alm_secs) st

/-- The second call of `alarm_thread`: the read of the live clock into its local
`rtc_secs`, made after the alarm read. -/
def thread_current_read (w : World) (mktime : Mktime) (st : State) : Int × State :=
  alarm_get_time w mktime .RTC_TIME (some .thread_rtc_secs) (thread_alarm_read w mktime st).2

/-- The difference `alm_secs - rtc_secs` of the two values read (line 188). -/
def thread_delay (w : World) (mktime : Mktime) (st : State) : Int :=
  (thread_alarm_read w mktime st).2.alm_secs - (thread_current_read w mktime st).2.thread_rtc_secs

/-- The call of the driver made by `alarm_thread` once both reads are done. -/
def thread_driver_call (w : World) (mktime : Mktime) (fuel : Nat) (st : State) :
    Option Int × State :=
  alarm_set_reboot_time_and_wait w mktime fuel (thread_delay w mktime st)
    (thread_current_read w mktime st).2

/-- The state of the driver when its loop is entered, the three calls before it
having succeeded: `open`, the elapsed-realtime request and the arming request
with the deadline computed on lines 136-137. -/
def armed_state (w : World) (secs : Int) (st : State) : State :=
  (sys_ioctl w (w st.calls).rc Cmd.ANDROID_ALARM_SET
    (some { tv_sec := (w (st.calls + 1)).ts.tv_sec + secs, tv_nsec := 0 })
    (sys_ioctl w (w st.calls).rc Cmd.ANDROID_ALARM_GET_TIME none
      (sys_open w "/dev/alarm" st).2).2).2

/-! ## Concrete environments -/

/-- The state in which the thread starts: the static is zero-initialised and no
system call has been made. -/
def State.init : State :=
  { alm_secs := 0, thread_rtc_secs := 0, expired_rtc_secs := 0, errno := 0, calls := 0,
    trace := [] }

/-- Midnight of 1 January 1970, a Thursday. -/
def zero_tm : Tm :=
  { tm_sec := 0, tm_min := 0, tm_hour := 0, tm_mday := 1, tm_mon := 0, tm_year := 70,
    tm_wday := 4, tm_yday := 0, tm_isdst := 0, tm_gmtoff := 0 }

/-- A call that succeeds with return value `rc`. -/
def ok_resp (rc : Int) : Resp := { rc := rc, errno := 0, tm := zero_tm, ts := ⟨0, 0⟩ }

/-- A call that fails with `-1` and leaves `e` in `errno`. -/
def fail_resp (e : Int) : Resp := { rc := -1, errno := e, tm := zero_tm, ts := ⟨0, 0⟩ }

/-- An RTC request that succeeds and reports `secs` seconds after midnight of
1 January 1970. -/
def rtc_resp (secs : Int) : Resp :=
  { rc := 0, errno := 0, tm := { zero_tm with tm_sec := secs }, ts := ⟨0, 0⟩ }

/-- An elapsed-realtime request that succeeds and reports `(s, ns)`. -/
def ts_resp (s ns : Int) : Resp := { rc := 0, errno := 0, tm := zero_tm, ts := ⟨s, ns⟩ }

/-- The world that answers the calls of a run with the entries of `l`, in
order, and fails every later call with `EIO`. -/
def script (l : List Resp) : World := fun n => l.getD n (fail_resp 5)

/-- What `mktime` computes for a record of January 1970 in a zone `off` seconds
east of UTC: the record is read as local time and `tm_gmtoff` is set. -/
def mktime_zone (off : Int) : Mktime := fun tm =>
  (tm.tm_sec + 60 * tm.tm_min + 3600 * tm.tm_hour + 86400 * (tm.tm_mday - 1) - off,
   { tm with tm_gmtoff := off })

/-- The end-to-end scenario: the alarm register holds 2000, the clock reads
1500, the elapsed realtime is `(100, 7)`, the arming succeeds, the first wait
returns 1 and the fresh clock read gives 2000. -/
def scenario_world : World :=
  script [ok_resp 3, rtc_resp 2000, ok_resp 3, rtc_resp 1500, ok_resp 4, ts_resp 100 7,
    ok_resp 0, ok_resp 1, ok_resp 3, rtc_resp 2000]

/-- The scenario with a wait that fails with `EIO` once the timer is armed, at a
moment when the clock reads 2000. -/
def wait_error_world : World :=
  script [ok_resp 3, rtc_resp 2000, ok_resp 3, rtc_resp 1500, ok_resp 4, ts_resp 100 7,
    ok_resp 0, fail_resp 5, ok_resp 3, rtc_resp 2000]

/-- The alarm register holds `a` and the clock reads `c`; every later call
fails. -/
def two_reads_world (a c : Int) : World :=
  script [ok_resp 3, rtc_resp a, ok_resp 3, rtc_resp c]

/-- The driver's calls in a run where the first wait fails with `EIO` while the
clock reads 1990, and the second wait returns 1 while the clock reads 2000. -/
def hard_error_world : World :=
  script [ok_resp 4, ts_resp 100 7, ok_resp 0, fail_resp 5, ok_resp 3, rtc_resp 1990,
    ok_resp 1, ok_resp 3, rtc_resp 2000]

/-- The driver's calls in a run where the first wait returns 1 while the clock
reads 1990, and the second wait returns 1 while the clock reads 2000. -/
def spurious_wake_world : World :=
  script [ok_resp 4, ts_resp 100 7, ok_resp 0, ok_resp 1, ok_resp 3, rtc_resp 1990,
    ok_resp 1, ok_resp 3, rtc_resp 2000]

/-- The driver's calls in a run where the first wait is interrupted by a signal,
and the second wait returns 1 while the clock reads 2000. -/
def interrupted_world : World :=
  script [ok_resp 4, ts_resp 100 7, ok_resp 0, fail_resp EINTR, ok_resp 1, ok_resp 3,
    rtc_resp 2000]

/-- A state whose stored alarm value is `a`. -/
def state_with_alarm (a : Int) : State := { State.init with alm_secs := a }

/-! ## Basic facts about the system calls and the RTC reader -/

section basic

variable (w : World) (mktime : Mktime)

theorem alarm_get_time_null (tt : alarm_time_type) (st : State) :
    alarm_get_time w mktime tt none st = (-1, st) := rfl

/-- The result of `alarm_get_time` is `0` or `-1`. -/
theorem alarm_get_time_rc (tt : alarm_time_type) (secs : Option TimeVar) (st : State) :
    (alarm_get_time w mktime tt secs st).1 = 0 ∨ (alarm_get_time w mktime tt secs st).1 = -1 := by
  cases secs with
  | none => right; rfl
  | some p =>
    simp only [alarm_get_time]
    split_ifs <;> simp

/-- When `alarm_get_time` succeeds, exactly when, and what it has stored. -/
theorem alarm_get_time_ok_iff (tt : alarm_time_type) (p : TimeVar) (st : State) :
    (alarm_get_time w mktime tt (some p) st).1 = 0 ↔
      0 ≤ (w st.calls).rc ∧ 0 ≤ (w (st.calls + 1)).rc ∧
        0 ≤ epoch_plus_offset mktime (w (st.calls + 1)).tm := by
  simp only [alarm_get_time, sys_open, sys_ioctl, State.after, epoch_plus_offset]
  cases p <;> simp only [State.store, State.load] <;> split_ifs <;> simp <;> omega

theorem alarm_get_time_value (tt : alarm_time_type) (p : TimeVar) (st : State)
    (h0 : 0 ≤ (w st.calls).rc) (h1 : 0 ≤ (w (st.calls + 1)).rc) :
    (alarm_get_time w mktime tt (some p) st).2.load p =
      epoch_plus_offset mktime (w (st.calls + 1)).tm := by
  simp only [alarm_get_time, sys_open, sys_ioctl, sys_close, State.after, epoch_plus_offset]
  rw [if_neg (not_lt.mpr h0), if_neg (not_lt.mpr h1)]
  cases p <;> simp only [State.store, State.load] <;> split_ifs <;> rfl

/-- A call of `alarm_get_time` changes no `time_t` object other than `*secs`. -/
theorem alarm_get_time_frame (tt : alarm_time_type) (p q : TimeVar) (st : State) (h : q ≠ p) :
    (alarm_get_time w mktime tt (some p) st).2.load q = st.load q := by
  simp only [alarm_get_time, sys_open, sys_ioctl, sys_close, State.after]
  cases p <;> cases q <;> simp only [State.store, State.load] <;> split_ifs <;>
    first | rfl | exact absurd rfl h

/-- The system calls made by `alarm_get_time`. -/
theorem alarm_get_time_trace (tt : alarm_time_type) (p : TimeVar) (st : State) :
    (alarm_get_time w mktime tt (some p) st).2.trace = st.trace ++ rtc_events w tt st.calls := by
  simp only [alarm_get_time, sys_open, sys_ioctl, sys_close, State.after, rtc_events]
  cases p <;> simp only [State.store, State.load] <;> split_ifs <;> simp

/-- The number of answers consumed by `alarm_get_time`. -/
theorem alarm_get_time_calls (tt : alarm_time_type) (p : TimeVar) (st : State) :
    (alarm_get_time w mktime tt (some p) st).2.calls =
      if (w st.calls).rc < 0 then st.calls + 1 else st.calls + 2 := by
  simp only [alarm_get_time, sys_open, sys_ioctl, sys_close, State.after]
  cases p <;> simp only [State.store, State.load] <;> split_ifs <;> rfl

/-- The validator changes no `time_t` object other than its own local. -/
theorem alarm_is_alm_expired_state (st : State) :
    (alarm_is_alm_expired w mktime st).2 =
      (alarm_get_time w mktime .RTC_TIME (some .expired_rtc_secs) st).2 := by
  simp only [alarm_is_alm_expired]
  split_ifs <;> rfl

theorem alarm_is_alm_expired_alm_secs (st : State) :
    (alarm_is_alm_expired w mktime st).2.alm_secs = st.alm_secs := by
  rw [alarm_is_alm_expired_state]
  exact alarm_get_time_frame w mktime .RTC_TIME .expired_rtc_secs .alm_secs st (by decide)

theorem alarm_is_alm_expired_trace (st : State) :
    (alarm_is_alm_expired w mktime st).2.trace =
      st.trace ++ rtc_events w .RTC_TIME st.calls := by
  rw [alarm_is_alm_expired_state, alarm_get_time_trace]

/-- The result of the validator is `0` or `1`. -/
theorem alarm_is_alm_expired_rc (st : State) :
    (alarm_is_alm_expired w mktime st).1 = 1 ∨ (alarm_is_alm_expired w mktime st).1 = 0 := by
  simp only [alarm_is_alm_expired]
  split_ifs <;> simp

/-- The validator answers `1` exactly when the read succeeds with a value in the
window around the stored alarm value. -/
theorem alarm_is_alm_expired_one_iff (st : State) :
    (alarm_is_alm_expired w mktime st).1 = 1 ↔
      ∃ current, read_current w mktime st = some current ∧
        st.alm_secs - 2 ≤ current ∧ current ≤ st.alm_secs + 2 := by
  have hfr := alarm_get_time_frame w mktime .RTC_TIME .expired_rtc_secs .alm_secs st (by decide)
  simp only [State.load] at hfr
  simp only [alarm_is_alm_expired, read_current, ERR_SECS, hfr]
  split_ifs with h1 h2
  · simp
  · simp only [Option.some.injEq, exists_eq_left', true_iff]
    omega
  · simp only [Option.some.injEq, exists_eq_left']
    constructor
    · intro h; exact absurd h (by decide)
    · intro h; exact absurd (show _ ∧ _ by omega) h2

/-! ## Facts about the wait loop -/

theorem wait_loop_zero (fd : Int) (st : State) : wait_loop w mktime fd 0 st = (none, st) := rfl

/-- One iteration of the loop. -/
theorem wait_loop_succ (fd : Int) (fuel : Nat) (st : State) :
    wait_loop w mktime fd (fuel + 1) st =
      if (sys_ioctl w fd Cmd.ANDROID_ALARM_WAIT none st).1.rc < 0 ∧
          (sys_ioctl w fd Cmd.ANDROID_ALARM_WAIT none st).2.errno = EINTR then
        wait_loop w mktime fd fuel (sys_ioctl w fd Cmd.ANDROID_ALARM_WAIT none st).2
      else if (alarm_is_alm_expired w mktime
          (sys_ioctl w fd Cmd.ANDROID_ALARM_WAIT none st).2).1 = 0 then
        wait_loop w mktime fd fuel
          (alarm_is_alm_expired w mktime (sys_ioctl w fd Cmd.ANDROID_ALARM_WAIT none st).2).2
      else
        (some (sys_ioctl w fd Cmd.ANDROID_ALARM_WAIT none st).1.rc,
          (alarm_is_alm_expired w mktime (sys_ioctl w fd Cmd.ANDROID_ALARM_WAIT none st).2).2) := by
  rw [wait_loop]

/-- An interrupted wait is followed by the next iteration. -/
theorem wait_loop_eintr (fd : Int) (fuel : Nat) (st : State)
    (h : (w st.calls).rc < 0 ∧ (w st.calls).errno = EINTR) :
    wait_loop w mktime fd (fuel + 1) st =
      wait_loop w mktime fd fuel (sys_ioctl w fd Cmd.ANDROID_ALARM_WAIT none st).2 := by
  have h2 : (sys_ioctl w fd Cmd.ANDROID_ALARM_WAIT none st).1.rc < 0 ∧
      (sys_ioctl w fd Cmd.ANDROID_ALARM_WAIT none st).2.errno = EINTR := by
    simp only [sys_ioctl, State.after, if_pos h.1]
    exact h
  rw [wait_loop_succ, if_pos h2]

/-- A wait that is not interrupted, followed by a validator answer of `0`, is
followed by the next iteration. -/
theorem wait_loop_not_expired (fd : Int) (fuel : Nat) (st : State)
    (h : ¬ ((w st.calls).rc < 0 ∧ (w st.calls).errno = EINTR))
    (he : (alarm_is_alm_expired w mktime
      (sys_ioctl w fd Cmd.ANDROID_ALARM_WAIT none st).2).1 = 0) :
    wait_loop w mktime fd (fuel + 1) st =
      wait_loop w mktime fd fuel
        (alarm_is_alm_expired w mktime (sys_ioctl w fd Cmd.ANDROID_ALARM_WAIT none st).2).2 := by
  have h2 : ¬ ((sys_ioctl w fd Cmd.ANDROID_ALARM_WAIT none st).1.rc < 0 ∧
      (sys_ioctl w fd Cmd.ANDROID_ALARM_WAIT none st).2.errno = EINTR) := by
    intro h3
    apply h
    refine ⟨h3.1, ?_⟩
    have h4 := h3.2
    simp only [sys_ioctl, State.after] at h3 h4
    rw [if_pos h3.1] at h4
    exact h4
  rw [wait_loop_succ, if_neg h2, if_pos he]

/-- The iteration in which the loop is left: the state `s` in which its last
wait was issued, a wait that was not interrupted and after which the validator
answered `1`. -/
theorem wait_loop_exit (fd : Int) (fuel : Nat) (st st1 : State) (rc : Int)
    (h : wait_loop w mktime fd fuel st = (some rc, st1)) :
    ∃ s : State,
      rc = (w s.calls).rc ∧
      ¬ ((w s.calls).rc < 0 ∧ (w s.calls).errno = EINTR) ∧
      (alarm_is_alm_expired w mktime (sys_ioctl w fd Cmd.ANDROID_ALARM_WAIT none s).2).1 = 1 ∧
      st1 = (alarm_is_alm_expired w mktime
        (sys_ioctl w fd Cmd.ANDROID_ALARM_WAIT none s).2).2 := by
  induction fuel generalizing st with
  | zero => simp [wait_loop] at h
  | succ n ih =>
    by_cases hi : (w st.calls).rc < 0 ∧ (w st.calls).errno = EINTR
    · rw [wait_loop_eintr w mktime fd n st hi] at h
      exact ih _ h
    · rcases alarm_is_alm_expired_rc w mktime
        (sys_ioctl w fd Cmd.ANDROID_ALARM_WAIT none st).2 with he | he
      · have h2 : ¬ ((sys_ioctl w fd Cmd.ANDROID_ALARM_WAIT none st).1.rc < 0 ∧
            (sys_ioctl w fd Cmd.ANDROID_ALARM_WAIT none st).2.errno = EINTR) := by
          intro h3
          apply hi
          refine ⟨h3.1, ?_⟩
          have h4 := h3.2
          simp only [sys_ioctl, State.after] at h3 h4
          rw [if_pos h3.1] at h4
          exact h4
        rw [wait_loop_succ, if_neg h2, if_neg (by rw [he]; decide)] at h
        simp only [Prod.mk.injEq, Option.some.injEq] at h
        exact ⟨st, by rw [← h.1]; rfl, hi, he, h.2.symm⟩
      · rw [wait_loop_not_expired w mktime fd n st hi he] at h
        exact ih _ h

/-- Every property of event lists that holds of the empty list, of a wait
request and of the events of an RTC read, and that is kept by concatenation,
holds of the events added by the wait loop. -/
theorem wait_loop_events (P : List Event → Prop) (fd : Int) (h0 : P [])
    (happ : ∀ a b, P a → P b → P (a ++ b))
    (hw : ∀ rc, P [Event.ioctl fd Cmd.ANDROID_ALARM_WAIT none rc])
    (hr : ∀ n, P (rtc_events w .RTC_TIME n)) (fuel : Nat) (st : State) :
    ∃ evs, (wait_loop w mktime fd fuel st).2.trace = st.trace ++ evs ∧ P evs := by
  induction fuel generalizing st with
  | zero => exact ⟨[], by simp [wait_loop], h0⟩
  | succ n ih =>
    have hi : (sys_ioctl w fd Cmd.ANDROID_ALARM_WAIT none st).2.trace =
        st.trace ++ [Event.ioctl fd Cmd.ANDROID_ALARM_WAIT none (w st.calls).rc] := rfl
    rw [wait_loop_succ]
    split_ifs with h1 h2
    · obtain ⟨evs, hev, hp⟩ := ih (sys_ioctl w fd Cmd.ANDROID_ALARM_WAIT none st).2
      exact ⟨_ ++ evs, by rw [hev, hi, List.append_assoc], happ _ _ (hw _) hp⟩
    · obtain ⟨evs, hev, hp⟩ := ih (alarm_is_alm_expired w mktime
        (sys_ioctl w fd Cmd.ANDROID_ALARM_WAIT none st).2).2
      refine ⟨([Event.ioctl fd Cmd.ANDROID_ALARM_WAIT none (w st.calls).rc] ++
        rtc_events w .RTC_TIME (sys_ioctl w fd Cmd.ANDROID_ALARM_WAIT none st).2.calls) ++ evs,
        ?_, happ _ _ (happ _ _ (hw _) (hr _)) hp⟩
      rw [hev, alarm_is_alm_expired_trace, hi]
      simp only [List.append_assoc]
    · refine ⟨[Event.ioctl fd Cmd.ANDROID_ALARM_WAIT none (w st.calls).rc] ++
        rtc_events w .RTC_TIME (sys_ioctl w fd Cmd.ANDROID_ALARM_WAIT none st).2.calls,
        ?_, happ _ _ (hw _) (hr _)⟩
      show (alarm_is_alm_expired w mktime _).2.trace = _
      rw [alarm_is_alm_expired_trace, hi]
      simp only [List.append_assoc]

/-- The wait loop leaves the static `alm_secs` alone. -/
theorem wait_loop_alm_secs (fd : Int) (fuel : Nat) (st : State) :
    (wait_loop w mktime fd fuel st).2.alm_secs = st.alm_secs := by
  induction fuel generalizing st with
  | zero => rfl
  | succ n ih =>
    rw [wait_loop_succ]
    split_ifs
    · rw [ih]; rfl
    · rw [ih, alarm_is_alm_expired_alm_secs]; rfl
    · show (alarm_is_alm_expired w mktime _).2.alm_secs = _
      rw [alarm_is_alm_expired_alm_secs]; rfl

/-! ## Facts about the driver -/

theorem armed_state_trace (secs : Int) (st : State) :
    (armed_state w secs st).trace = st.trace ++
      [Event.open_ "/dev/alarm" (w st.calls).rc,
       Event.ioctl (w st.calls).rc Cmd.ANDROID_ALARM_GET_TIME none (w (st.calls + 1)).rc,
       Event.ioctl (w st.calls).rc Cmd.ANDROID_ALARM_SET
         (some { tv_sec := (w (st.calls + 1)).ts.tv_sec + secs, tv_nsec := 0 })
         (w (st.calls + 2)).rc] := by
  simp [armed_state, sys_open, sys_ioctl, State.after]

theorem armed_state_alm_secs (secs : Int) (st : State) :
    (armed_state w secs st).alm_secs = st.alm_secs := rfl

/-- The driver when the `open` fails: no further call is made. -/
theorem driver_open_failed (fuel : Nat) (secs : Int) (st : State) (h : (w st.calls).rc < 0) :
    alarm_set_reboot_time_and_wait w mktime fuel secs st =
      (some (-1), (sys_open w "/dev/alarm" st).2) := by
  simp only [alarm_set_reboot_time_and_wait, driver_err, sys_open]
  rw [if_pos h, if_neg (by omega)]

/-- The driver when the elapsed-realtime request fails. -/
theorem driver_get_failed (fuel : Nat) (secs : Int) (st : State) (h0 : 0 ≤ (w st.calls).rc)
    (h1 : (w (st.calls + 1)).rc < 0) :
    alarm_set_reboot_time_and_wait w mktime fuel secs st =
      (some (-1), sys_close (w st.calls).rc
        (sys_ioctl w (w st.calls).rc Cmd.ANDROID_ALARM_GET_TIME none
          (sys_open w "/dev/alarm" st).2).2) := by
  simp only [alarm_set_reboot_time_and_wait, driver_err, sys_open, sys_ioctl, State.after]
  rw [if_neg (by omega), if_pos h1, if_pos (by omega)]

/-- The driver when the arming request fails. -/
theorem driver_set_failed (fuel : Nat) (secs : Int) (st : State) (h0 : 0 ≤ (w st.calls).rc)
    (h1 : 0 ≤ (w (st.calls + 1)).rc) (h2 : (w (st.calls + 2)).rc < 0) :
    alarm_set_reboot_time_and_wait w mktime fuel secs st =
      (some (-1), sys_close (w st.calls).rc (armed_state w secs st)) := by
  simp only [alarm_set_reboot_time_and_wait, driver_err, sys_open, sys_ioctl, State.after,
    armed_state]
  rw [if_neg (by omega), if_neg (by omega), if_pos h2, if_pos (by omega)]

/-- The driver when the timer is armed: the loop decides. -/
theorem driver_armed (fuel : Nat) (secs : Int) (st : State) (h0 : 0 ≤ (w st.calls).rc)
    (h1 : 0 ≤ (w (st.calls + 1)).rc) (h2 : 0 ≤ (w (st.calls + 2)).rc) :
    alarm_set_reboot_time_and_wait w mktime fuel secs st =
      match (wait_loop w mktime (w st.calls).rc fuel (armed_state w secs st)).1 with
      | none => (none, (wait_loop w mktime (w st.calls).rc fuel (armed_state w secs st)).2)
      | some rc =>
        if rc ≤ 0 then
          (some (-1), sys_close (w st.calls).rc
            (wait_loop w mktime (w st.calls).rc fuel (armed_state w secs st)).2)
        else
          (some 0, sys_close (w st.calls).rc
            (wait_loop w mktime (w st.calls).rc fuel (armed_state w secs st)).2) := by
  simp only [alarm_set_reboot_time_and_wait, driver_err, sys_open, sys_ioctl, State.after,
    armed_state]
  rw [if_neg (not_lt.mpr h0), if_neg (not_lt.mpr h1), if_neg (not_lt.mpr h2)]
  simp only [ge_iff_le, if_pos h0]

/-- The result of the driver is `0` or `-1`, or the loop is still running. -/
theorem driver_rc (fuel : Nat) (secs : Int) (st : State) :
    (alarm_set_reboot_time_and_wait w mktime fuel secs st).1 = some 0 ∨
    (alarm_set_reboot_time_and_wait w mktime fuel secs st).1 = some (-1) ∨
    (alarm_set_reboot_time_and_wait w mktime fuel secs st).1 = none := by
  by_cases h0 : (w st.calls).rc < 0
  · rw [driver_open_failed w mktime fuel secs st h0]; simp
  by_cases h1 : (w (st.calls + 1)).rc < 0
  · rw [driver_get_failed w mktime fuel secs st (by omega) h1]; simp
  by_cases h2 : (w (st.calls + 2)).rc < 0
  · rw [driver_set_failed w mktime fuel secs st (by omega) (by omega) h2]; simp
  rw [driver_armed w mktime fuel secs st (by omega) (by omega) (by omega)]
  split
  · simp
  · split_ifs <;> simp

/-- Every property of event lists that holds of the empty list and of each kind
of call the driver can make, and that is kept by concatenation, holds of the
events added by the driver. -/
theorem driver_events (P : List Event → Prop) (h0 : P [])
    (happ : ∀ a b, P a → P b → P (a ++ b))
    (ho : ∀ fd, P [Event.open_ "/dev/alarm" fd])
    (hi : ∀ fd cmd arg rc, cmd ≠ Cmd.RTC_ALM_READ → cmd ≠ Cmd.RTC_RD_TIME →
      P [Event.ioctl fd cmd arg rc])
    (hc : ∀ fd, P [Event.close fd])
    (hr : ∀ n, P (rtc_events w .RTC_TIME n)) (fuel : Nat) (secs : Int) (st : State) :
    ∃ evs, (alarm_set_reboot_time_and_wait w mktime fuel secs st).2.trace = st.trace ++ evs ∧
      P evs := by
  have harm : P [Event.open_ "/dev/alarm" (w st.calls).rc,
       Event.ioctl (w st.calls).rc Cmd.ANDROID_ALARM_GET_TIME none (w (st.calls + 1)).rc,
       Event.ioctl (w st.calls).rc Cmd.ANDROID_ALARM_SET
         (some { tv_sec := (w (st.calls + 1)).ts.tv_sec + secs, tv_nsec := 0 })
         (w (st.calls + 2)).rc] :=
    happ [_] [_, _] (ho _) (happ [_] [_] (hi _ _ _ _ (by decide) (by decide))
      (hi _ _ _ _ (by decide) (by decide)))
  by_cases c0 : (w st.calls).rc < 0
  · rw [driver_open_failed w mktime fuel secs st c0]
    exact ⟨[Event.open_ "/dev/alarm" (w st.calls).rc], rfl, ho _⟩
  by_cases c1 : (w (st.calls + 1)).rc < 0
  · rw [driver_get_failed w mktime fuel secs st (by omega) c1]
    refine ⟨[Event.open_ "/dev/alarm" (w st.calls).rc,
       Event.ioctl (w st.calls).rc Cmd.ANDROID_ALARM_GET_TIME none (w (st.calls + 1)).rc,
       Event.close (w st.calls).rc], ?_, ?_⟩
    · simp [sys_close, sys_ioctl, sys_open, State.after]
    · exact happ [_] [_, _] (ho _) (happ [_] [_] (hi _ _ _ _ (by decide) (by decide)) (hc _))
  by_cases c2 : (w (st.calls + 2)).rc < 0
  · rw [driver_set_failed w mktime fuel secs st (by omega) (by omega) c2]
    refine ⟨_ ++ [Event.close (w st.calls).rc], ?_, happ _ _ harm (hc _)⟩
    simp only [sys_close, armed_state_trace, List.append_assoc]
  rw [driver_armed w mktime fuel secs st (by omega) (by omega) (by omega)]
  obtain ⟨evs, hev, hp⟩ := wait_loop_events w mktime P (w st.calls).rc h0 happ
    (fun rc => hi _ _ _ _ (by decide) (by decide)) hr fuel (armed_state w secs st)
  rw [armed_state_trace] at hev
  split
  · exact ⟨_ ++ evs, by rw [hev, List.append_assoc], happ _ _ harm hp⟩
  · split_ifs
    · refine ⟨(_ ++ evs) ++ [Event.close (w st.calls).rc], ?_, happ _ _ (happ _ _ harm hp) (hc _)⟩
      simp only [sys_close, hev, List.append_assoc]
    · refine ⟨(_ ++ evs) ++ [Event.close (w st.calls).rc], ?_, happ _ _ (happ _ _ harm hp) (hc _)⟩
      simp only [sys_close, hev, List.append_assoc]

/-- The driver leaves the static `alm_secs` alone. -/
theorem driver_alm_secs (fuel : Nat) (secs : Int) (st : State) :
    (alarm_set_reboot_time_and_wait w mktime fuel secs st).2.alm_secs = st.alm_secs := by
  by_cases c0 : (w st.calls).rc < 0
  · rw [driver_open_failed w mktime fuel secs st c0]; rfl
  by_cases c1 : (w (st.calls + 1)).rc < 0
  · rw [driver_get_failed w mktime fuel secs st (by omega) c1]; rfl
  by_cases c2 : (w (st.calls + 2)).rc < 0
  · rw [driver_set_failed w mktime fuel secs st (by omega) (by omega) c2]; rfl
  rw [driver_armed w mktime fuel secs st (by omega) (by omega) (by omega)]
  have hl := wait_loop_alm_secs w mktime (w st.calls).rc fuel (armed_state w secs st)
  rw [armed_state_alm_secs] at hl
  split
  · exact hl
  · split_ifs <;> exact hl

/-! ## Facts about event lists -/

theorem reboot_requests_append (a b : List Event) :
    reboot_requests (a ++ b) = reboot_requests a ++ reboot_requests b := by
  induction a with
  | nil => rfl
  | cons e l ih => cases e <;> simp [reboot_requests, ih]

theorem reboot_requests_rtc_events (tt : alarm_time_type) (n : Nat) :
    reboot_requests (rtc_events w tt n) = [] := by
  simp only [rtc_events]
  split_ifs <;> rfl

/-- The driver requests no reboot. -/
theorem driver_no_reboot (fuel : Nat) (secs : Int) (st : State) :
    reboot_requests (alarm_set_reboot_time_and_wait w mktime fuel secs st).2.trace =
      reboot_requests st.trace := by
  obtain ⟨evs, hev, hq⟩ := driver_events w mktime (fun l => reboot_requests l = []) rfl
    (fun a b h1 h2 => by
      show reboot_requests (a ++ b) = []
      rw [reboot_requests_append, show reboot_requests a = [] from h1,
        show reboot_requests b = [] from h2]
      rfl)
    (fun _ => rfl) (fun _ cmd _ _ _ _ => by cases cmd <;> rfl) (fun _ => rfl)
    (fun n => reboot_requests_rtc_events w _ n) fuel secs st
  rw [hev, reboot_requests_append, show reboot_requests evs = [] from hq, List.append_nil]

theorem rtc_events_rtc_only (tt : alarm_time_type) (n : Nat) :
    (rtc_events w tt n).all Event.is_rtc_only = true := by
  simp only [rtc_events]
  split_ifs <;> cases tt <;> rfl

theorem alarm_read_no_current_read (n : Nat) :
    (rtc_events w .ALARM_TIME n).all (fun e => !e.is_current_read) = true := by
  simp only [rtc_events]
  split_ifs <;> rfl

theorem arms_append (a b : List Event) : arms (a ++ b) = arms a ++ arms b := by
  induction a with
  | nil => rfl
  | cons e l ih =>
    cases e with
    | ioctl fd cmd arg rc => cases cmd <;> cases arg <;> simp [arms, ih]
    | _ => simp [arms, ih]

theorem arms_rtc_events (tt : alarm_time_type) (n : Nat) : arms (rtc_events w tt n) = [] := by
  simp only [rtc_events]
  split_ifs <;> cases tt <;> rfl

/-- Handle bookkeeping over a concatenation. -/
theorem track_append (held : List Int) (a b : List Event) :
    track held (a ++ b) = (track held a).bind (fun h => track h b) := by
  induction a generalizing held with
  | nil => rfl
  | cons e l ih =>
    cases e with
    | open_ path fd =>
      simp only [List.cons_append, track]
      split_ifs <;> exact ih _
    | close fd =>
      cases held with
      | nil => rfl
      | cons top rest =>
        simp only [List.cons_append, track]
        split_ifs
        · exact ih _
        · rfl
    | ioctl fd cmd arg rc => exact ih _
    | android_reboot c f r => exact ih _

/-- Events that are balanced on their own are balanced under any handles held
before them. -/
theorem track_lift (a b h : List Int) (l : List Event) (hl : track a l = some b) :
    track (a ++ h) l = some (b ++ h) := by
  induction l generalizing a with
  | nil =>
    simp only [track, Option.some.injEq] at hl
    rw [track, hl]
  | cons e l ih =>
    cases e with
    | open_ path fd =>
      simp only [track] at hl ⊢
      split_ifs at hl ⊢ with c
      · exact ih _ hl
      · exact ih (fd :: a) hl
    | close fd =>
      cases a with
      | nil => simp [track] at hl
      | cons top rest =>
        simp only [List.cons_append, track] at hl ⊢
        split_ifs at hl ⊢ with c
        exact ih _ hl
    | ioctl fd cmd arg rc => exact ih _ hl
    | android_reboot c f r => exact ih _ hl

theorem track_lift_nil (h : List Int) (l : List Event) (hl : track [] l = some []) :
    track h l = some h := by
  simpa using track_lift [] [] h l hl

/-- Two balanced lists of events concatenate to a balanced list. -/
theorem track_balanced_append (a b : List Event) (ha : track [] a = some [])
    (hb : track [] b = some []) : track [] (a ++ b) = some [] := by
  rw [track_append, ha]
  exact hb

/-- The events of one RTC read are balanced: the descriptor, when there is one,
is closed once. -/
theorem track_rtc_events (tt : alarm_time_type) (n : Nat) :
    track [] (rtc_events w tt n) = some [] := by
  simp only [rtc_events]
  split_ifs with c
  · simp only [track, if_pos c]
  · simp only [track, if_neg c, if_true]

/-- The events added by the wait loop, started on the descriptor `fd`, are
balanced, arm nothing, and the first of them is a wait request. -/
theorem wait_loop_quiet (fd : Int) (fuel : Nat) (st : State) :
    ∃ evs, (wait_loop w mktime fd fuel st).2.trace = st.trace ++ evs ∧
      (track [] evs = some [] ∧ arms evs = []) := by
  refine wait_loop_events w mktime (fun l => track [] l = some [] ∧ arms l = []) fd
    ⟨rfl, rfl⟩ ?_ (fun _ => ⟨rfl, rfl⟩) (fun n => ⟨track_rtc_events w _ n, arms_rtc_events w _ n⟩)
    fuel st
  intro a b ha hb
  exact ⟨track_balanced_append a b ha.1 hb.1, by rw [arms_append, ha.2, hb.2]; rfl⟩

/-- An iteration of the loop starts with a wait request. -/
theorem wait_loop_first (fd : Int) (fuel : Nat) (st : State) :
    ∃ tail, (wait_loop w mktime fd (fuel + 1) st).2.trace =
      st.trace ++ Event.ioctl fd Cmd.ANDROID_ALARM_WAIT none (w st.calls).rc :: tail := by
  have hi : (sys_ioctl w fd Cmd.ANDROID_ALARM_WAIT none st).2.trace =
      st.trace ++ [Event.ioctl fd Cmd.ANDROID_ALARM_WAIT none (w st.calls).rc] := rfl
  rw [wait_loop_succ]
  split_ifs
  · obtain ⟨evs, hev, _⟩ := wait_loop_quiet w mktime fd fuel
      (sys_ioctl w fd Cmd.ANDROID_ALARM_WAIT none st).2
    exact ⟨evs, by rw [hev, hi, List.append_assoc]; rfl⟩
  · obtain ⟨evs, hev, _⟩ := wait_loop_quiet w mktime fd fuel
      (alarm_is_alm_expired w mktime (sys_ioctl w fd Cmd.ANDROID_ALARM_WAIT none st).2).2
    refine ⟨rtc_events w .RTC_TIME (st.calls + 1) ++ evs, ?_⟩
    rw [hev, alarm_is_alm_expired_trace, hi]
    simp only [List.append_assoc, List.singleton_append]
    rfl
  · refine ⟨rtc_events w .RTC_TIME (st.calls + 1), ?_⟩
    show (alarm_is_alm_expired w mktime _).2.trace = _
    rw [alarm_is_alm_expired_trace, hi]
    simp only [List.append_assoc, List.singleton_append]
    rfl

/-- A successful `open`, balanced events and the `close` of the descriptor are
balanced under any handles held before. -/
theorem track_bracket (held : List Int) (path : String) (fd : Int) (mid : List Event)
    (h : 0 ≤ fd) (hm : track [] mid = some []) :
    track held (Event.open_ path fd :: (mid ++ [Event.close fd])) = some held := by
  rw [track, if_neg (not_lt.mpr h), track_append, track_lift_nil (fd :: held) mid hm]
  simp [track]

/-- The validator of the source agrees with the validator of the specification
called with the stored `alm_secs` as reference. -/
theorem alarm_is_alm_expired_eq_is_expired (st : State) :
    alarm_is_alm_expired w mktime st =
      (if (is_expired w mktime st.alm_secs st).1 = true then 1 else 0,
        (is_expired w mktime st.alm_secs st).2) := by
  have hfr := alarm_get_time_frame w mktime .RTC_TIME .expired_rtc_secs .alm_secs st (by decide)
  simp only [State.load] at hfr
  by_cases h1 : (alarm_get_time w mktime .RTC_TIME (some .expired_rtc_secs) st).1 < 0
  · have hr : read_current w mktime st = none := by simp only [read_current, if_pos h1]
    simp only [alarm_is_alm_expired, is_expired, hr, if_pos h1]
    rfl
  · have hr : read_current w mktime st = some
        (alarm_get_time w mktime .RTC_TIME (some .expired_rtc_secs) st).2.expired_rtc_secs := by
      simp only [read_current, if_neg h1]
    simp only [alarm_is_alm_expired, is_expired, hr, if_neg h1, ERR_SECS, hfr, decide_eq_true_eq]
    by_cases h2 : st.alm_secs ≥
        (alarm_get_time w mktime .RTC_TIME (some .expired_rtc_secs) st).2.expired_rtc_secs - 2 ∧
        st.alm_secs ≤
        (alarm_get_time w mktime .RTC_TIME (some .expired_rtc_secs) st).2.expired_rtc_secs + 2
    · rw [if_pos h2, if_pos (by omega)]
    · rw [if_neg h2, if_neg (by omega)]

/-- The wait loop of the source agrees with the loop that is handed, as
reference, the value `alm_secs` has when the loop is entered. -/
theorem wait_loop_eq_ref (fd : Int) (fuel : Nat) (st : State) :
    wait_loop w mktime fd fuel st = wait_loop_ref w mktime st.alm_secs fd fuel st := by
  induction fuel generalizing st with
  | zero => rfl
  | succ n ih =>
    have hv := alarm_is_alm_expired_eq_is_expired w mktime
      (sys_ioctl w fd Cmd.ANDROID_ALARM_WAIT none st).2
    have ha : (sys_ioctl w fd Cmd.ANDROID_ALARM_WAIT none st).2.alm_secs = st.alm_secs := rfl
    rw [ha] at hv
    have hs : (is_expired w mktime st.alm_secs
        (sys_ioctl w fd Cmd.ANDROID_ALARM_WAIT none st).2).2.alm_secs = st.alm_secs := by
      have := alarm_is_alm_expired_alm_secs w mktime
        (sys_ioctl w fd Cmd.ANDROID_ALARM_WAIT none st).2
      rw [hv] at this
      exact this
    rw [wait_loop_succ, wait_loop_ref, hv]
    simp only
    by_cases c : (sys_ioctl w fd Cmd.ANDROID_ALARM_WAIT none st).1.rc < 0 ∧
        (sys_ioctl w fd Cmd.ANDROID_ALARM_WAIT none st).2.errno = EINTR
    · rw [if_pos c, if_pos c]
      exact ih _
    · rw [if_neg c, if_neg c]
      cases hb : (is_expired w mktime st.alm_secs
          (sys_ioctl w fd Cmd.ANDROID_ALARM_WAIT none st).2).1
      · simp only [Bool.false_eq_true, if_false, if_true]
        rw [ih, hs]
      · simp

end basic

/-! ## The Alarm Expiry Validator -/

/-- C1: `alarm_is_alm_expired` is fully characterised by its fresh RTC read.
Its result is `1` (true) or `0` (false); it is `1` exactly when the read
succeeds with a value `current` such that
`reference - 2 ≤ current ≤ reference + 2`, where `reference` is the stored
`alm_secs`; in particular it is `0` when the read fails, `0` for
`current = reference - 3` and `current = reference + 3`, and `1` for
`current = reference`, `reference - 2` and `reference + 2`. -/
theorem alarm_is_alm_expired_characterised (w : World) (mktime : Mktime) (st : State) :
    ((alarm_is_alm_expired w mktime st).1 = 1 ∨ (alarm_is_alm_expired w mktime st).1 = 0) ∧
    ((alarm_is_alm_expired w mktime st).1 = 1 ↔
      ∃ current, read_current w mktime st = some current ∧
        st.alm_secs - 2 ≤ current ∧ current ≤ st.alm_secs + 2) ∧
    (read_current w mktime st = none → (alarm_is_alm_expired w mktime st).1 = 0) ∧
    (read_current w mktime st = some (st.alm_secs - 3) →
      (alarm_is_alm_expired w mktime st).1 = 0) ∧
    (read_current w mktime st = some (st.alm_secs + 3) →
      (alarm_is_alm_expired w mktime st).1 = 0) ∧
    (read_current w mktime st = some st.alm_secs →
      (alarm_is_alm_expired w mktime st).1 = 1) ∧
    (read_current w mktime st = some (st.alm_secs - 2) →
      (alarm_is_alm_expired w mktime st).1 = 1) ∧
    (read_current w mktime st = some (st.alm_secs + 2) →
      (alarm_is_alm_expired w mktime st).1 = 1) := by
  have hrc := alarm_is_alm_expired_rc w mktime st
  have hiff := alarm_is_alm_expired_one_iff w mktime st
  have hzero : ∀ {c : Option Int}, read_current w mktime st = c →
      (¬ ∃ current, c = some current ∧ st.alm_secs - 2 ≤ current ∧ current ≤ st.alm_secs + 2) →
      (alarm_is_alm_expired w mktime st).1 = 0 := by
    intro c hc hn
    rcases hrc with h | h
    · exact absurd (hc ▸ hiff.mp h) hn
    · exact h
  refine ⟨hrc, hiff, ?_, ?_, ?_, ?_, ?_, ?_⟩
  · intro h
    exact hzero h (by simp)
  · intro h
    refine hzero h ?_
    rintro ⟨c, hc, h1, h2⟩
    simp only [Option.some.injEq] at hc
    omega
  · intro h
    refine hzero h ?_
    rintro ⟨c, hc, h1, h2⟩
    simp only [Option.some.injEq] at hc
    omega
  · intro h
    exact hiff.mpr ⟨_, h, by omega, by omega⟩
  · intro h
    exact hiff.mpr ⟨_, h, by omega, by omega⟩
  · intro h
    exact hiff.mpr ⟨_, h, by omega, by omega⟩

/-- C1 at concrete inputs, with the stored alarm value 2000: a failing `open`, a
failing request, and successful reads of 1997, 1998, 2000, 2002 and 2003. -/
theorem alarm_is_alm_expired_characterised_witness :
    (alarm_is_alm_expired (script [fail_resp 2]) (mktime_zone 0) (state_with_alarm 2000)).1 = 0 ∧
    (alarm_is_alm_expired (script [ok_resp 3, fail_resp 5]) (mktime_zone 0)
      (state_with_alarm 2000)).1 = 0 ∧
    (alarm_is_alm_expired (script [ok_resp 3, rtc_resp 1997]) (mktime_zone 0)
      (state_with_alarm 2000)).1 = 0 ∧
    (alarm_is_alm_expired (script [ok_resp 3, rtc_resp 1998]) (mktime_zone 0)
      (state_with_alarm 2000)).1 = 1 ∧
    (alarm_is_alm_expired (script [ok_resp 3, rtc_resp 2000]) (mktime_zone 0)
      (state_with_alarm 2000)).1 = 1 ∧
    (alarm_is_alm_expired (script [ok_resp 3, rtc_resp 2002]) (mktime_zone 0)
      (state_with_alarm 2000)).1 = 1 ∧
    (alarm_is_alm_expired (script [ok_resp 3, rtc_resp 2003]) (mktime_zone 0)
      (state_with_alarm 2000)).1 = 0 :=
  ⟨(alarm_is_alm_expired_characterised (script [fail_resp 2]) (mktime_zone 0)
      (state_with_alarm 2000)).2.2.1 (by decide),
   (alarm_is_alm_expired_characterised (script [ok_resp 3, fail_resp 5]) (mktime_zone 0)
      (state_with_alarm 2000)).2.2.1 (by decide),
   (alarm_is_alm_expired_characterised (script [ok_resp 3, rtc_resp 1997]) (mktime_zone 0)
      (state_with_alarm 2000)).2.2.2.1 (by decide),
   (alarm_is_alm_expired_characterised (script [ok_resp 3, rtc_resp 1998]) (mktime_zone 0)
      (state_with_alarm 2000)).2.2.2.2.2.2.1 (by decide),
   (alarm_is_alm_expired_characterised (script [ok_resp 3, rtc_resp 2000]) (mktime_zone 0)
      (state_with_alarm 2000)).2.2.2.2.2.1 (by decide),
   (alarm_is_alm_expired_characterised (script [ok_resp 3, rtc_resp 2002]) (mktime_zone 0)
      (state_with_alarm 2000)).2.2.2.2.2.2.2 (by decide),
   (alarm_is_alm_expired_characterised (script [ok_resp 3, rtc_resp 2003]) (mktime_zone 0)
      (state_with_alarm 2000)).2.2.2.2.1 (by decide)⟩

/-! ## The RTC Reader -/

/-- C6: for every record `tm` written by the RTC request, with
`epoch_plus_offset mktime tm` the sum `mktime(&tm) + tm.tm_gmtoff`: when the
`open` and the request succeed, `alarm_get_time` returns `0` and leaves that sum
in `*secs` exactly when the sum is non-negative, and returns `-1` exactly when
it is negative; a value returned with success is non-negative; the call returns
`-1` when the `open` fails and when the request fails; and two reads that are
answered with the same record return the same result and value. -/
theorem alarm_get_time_characterised (w : World) (mktime : Mktime) (tt : alarm_time_type)
    (p : TimeVar) (st : State) :
    (0 ≤ (w st.calls).rc → 0 ≤ (w (st.calls + 1)).rc →
      (((alarm_get_time w mktime tt (some p) st).1 = 0 ∧
          (alarm_get_time w mktime tt (some p) st).2.load p =
            epoch_plus_offset mktime (w (st.calls + 1)).tm) ↔
        0 ≤ epoch_plus_offset mktime (w (st.calls + 1)).tm) ∧
      ((alarm_get_time w mktime tt (some p) st).1 = -1 ↔
        epoch_plus_offset mktime (w (st.calls + 1)).tm < 0)) ∧
    ((alarm_get_time w mktime tt (some p) st).1 = 0 →
      0 ≤ (alarm_get_time w mktime tt (some p) st).2.load p) ∧
    ((w st.calls).rc < 0 → (alarm_get_time w mktime tt (some p) st).1 = -1) ∧
    (0 ≤ (w st.calls).rc → (w (st.calls + 1)).rc < 0 →
      (alarm_get_time w mktime tt (some p) st).1 = -1) ∧
    (∀ (w2 : World) (st2 : State),
      0 ≤ (w st.calls).rc → 0 ≤ (w (st.calls + 1)).rc →
      0 ≤ (w2 st2.calls).rc → 0 ≤ (w2 (st2.calls + 1)).rc →
      (w2 (st2.calls + 1)).tm = (w (st.calls + 1)).tm →
      (alarm_get_time w2 mktime tt (some p) st2).1 = (alarm_get_time w mktime tt (some p) st).1 ∧
      (alarm_get_time w2 mktime tt (some p) st2).2.load p =
        (alarm_get_time w mktime tt (some p) st).2.load p) := by
  have hrc := alarm_get_time_rc w mktime tt (some p) st
  have hiff := alarm_get_time_ok_iff w mktime tt p st
  refine ⟨?_, ?_, ?_, ?_, ?_⟩
  · intro h0 h1
    have hv := alarm_get_time_value w mktime tt p st h0 h1
    refine ⟨⟨fun h => (hiff.mp h.1).2.2, fun h => ⟨hiff.mpr ⟨h0, h1, h⟩, hv⟩⟩, ?_, ?_⟩
    · intro h
      by_contra hn
      have := hiff.mpr ⟨h0, h1, not_lt.mp hn⟩
      omega
    · intro h
      rcases hrc with h2 | h2
      · have := (hiff.mp h2).2.2
        omega
      · exact h2
  · intro h
    have h3 := hiff.mp h
    rw [alarm_get_time_value w mktime tt p st h3.1 h3.2.1]
    exact h3.2.2
  · intro h
    rcases hrc with h2 | h2
    · have := (hiff.mp h2).1
      omega
    · exact h2
  · intro _ h
    rcases hrc with h2 | h2
    · have := (hiff.mp h2).2.1
      omega
    · exact h2
  · intro w2 st2 h0 h1 h0b h1b htm
    have hiff2 := alarm_get_time_ok_iff w2 mktime tt p st2
    have hrc2 := alarm_get_time_rc w2 mktime tt (some p) st2
    rw [alarm_get_time_value w mktime tt p st h0 h1,
      alarm_get_time_value w2 mktime tt p st2 h0b h1b, htm]
    refine ⟨?_, rfl⟩
    rw [htm] at hiff2
    by_cases hs : 0 ≤ epoch_plus_offset mktime (w (st.calls + 1)).tm
    · rw [hiff.mpr ⟨h0, h1, hs⟩, hiff2.mpr ⟨h0b, h1b, hs⟩]
    · have e1 : (alarm_get_time w mktime tt (some p) st).1 = -1 := by
        rcases hrc with h2 | h2
        · exact absurd (hiff.mp h2).2.2 hs
        · exact h2
      have e2 : (alarm_get_time w2 mktime tt (some p) st2).1 = -1 := by
        rcases hrc2 with h2 | h2
        · exact absurd (hiff2.mp h2).2.2 hs
        · exact h2
      rw [e1, e2]

/-- C6 at concrete inputs, in a zone one hour east of UTC: the register holds
00:33:20 of 1 January 1970, `mktime` returns -1600 and the offset is 3600, so
the read succeeds with 2000; and the register holds 31 December 1969, the sum
is -86400 and the read fails. -/
theorem alarm_get_time_characterised_witness :
    ((alarm_get_time (script [ok_resp 3, rtc_resp 2000]) (mktime_zone 3600) .ALARM_TIME
        (some .alm_secs) State.init).1 = 0 ∧
      (alarm_get_time (script [ok_resp 3, rtc_resp 2000]) (mktime_zone 3600) .ALARM_TIME
        (some .alm_secs) State.init).2.load .alm_secs = 2000) ∧
    (alarm_get_time (script [ok_resp 3, rtc_resp (-86400)]) (mktime_zone 3600) .ALARM_TIME
        (some .alm_secs) State.init).1 = -1 :=
  ⟨((alarm_get_time_characterised (script [ok_resp 3, rtc_resp 2000]) (mktime_zone 3600)
      .ALARM_TIME .alm_secs State.init).1 (by decide) (by decide)).1.mpr (by decide),
   ((alarm_get_time_characterised (script [ok_resp 3, rtc_resp (-86400)]) (mktime_zone 3600)
      .ALARM_TIME .alm_secs State.init).1 (by decide) (by decide)).2.mpr (by decide)⟩

/-! ## The Alarm Orchestrator -/

/-- C2: `alarm_thread` requests a reboot if and only if the alarm read succeeds
with a non-zero value, the current-time read succeeds, the delay
`alarm_time - current_time` is strictly positive and the driver, called with
that delay while `alm_secs` still holds the alarm time, returns success.  When
it does, it does so exactly once, with the reason `"rtc"`; in every other run
(a run still inside the wait loop included) no reboot is requested.  In the
scenario alarm 2000, clock 1500, the delay is 500, the timer is armed 500
seconds after the elapsed realtime, and the successful wait followed by a fresh
read of 2000 ends in the reboot request tagged `"rtc"`. -/
theorem alarm_thread_reboot_iff (w : World) (mktime : Mktime) (fuel : Nat) (st : State) :
    ((thread_alarm_read w mktime st).1 = 0 ∧ (thread_alarm_read w mktime st).2.alm_secs ≠ 0 ∧
        (thread_current_read w mktime st).1 = 0 ∧ 0 < thread_delay w mktime st ∧
        (thread_driver_call w mktime fuel st).1 = some 0 →
      alarm_thread w mktime fuel st =
        (true, android_reboot RebootCmd.ANDROID_RB_RESTART2 0 "rtc"
          (thread_driver_call w mktime fuel st).2) ∧
      reboot_requests (alarm_thread w mktime fuel st).2.trace =
        reboot_requests st.trace ++ ["rtc"]) ∧
    (¬ ((thread_alarm_read w mktime st).1 = 0 ∧ (thread_alarm_read w mktime st).2.alm_secs ≠ 0 ∧
        (thread_current_read w mktime st).1 = 0 ∧ 0 < thread_delay w mktime st ∧
        (thread_driver_call w mktime fuel st).1 = some 0) →
      reboot_requests (alarm_thread w mktime fuel st).2.trace = reboot_requests st.trace) ∧
    (thread_current_read w mktime st).2.alm_secs = (thread_alarm_read w mktime st).2.alm_secs ∧
    (thread_delay scenario_world (mktime_zone 0) State.init = 500 ∧
      alarm_thread scenario_world (mktime_zone 0) 1 State.init =
        (true,
          { alm_secs := 2000, thread_rtc_secs := 1500, expired_rtc_secs := 2000, errno := 0,
            calls := 10,
            trace :=
              [Event.open_ "/dev/rtc0" 3, Event.ioctl 3 Cmd.RTC_ALM_READ none 0, Event.close 3,
               Event.open_ "/dev/rtc0" 3, Event.ioctl 3 Cmd.RTC_RD_TIME none 0, Event.close 3,
               Event.open_ "/dev/alarm" 4, Event.ioctl 4 Cmd.ANDROID_ALARM_GET_TIME none 0,
               Event.ioctl 4 Cmd.ANDROID_ALARM_SET (some ⟨600, 0⟩) 0,
               Event.ioctl 4 Cmd.ANDROID_ALARM_WAIT none 1,
               Event.open_ "/dev/rtc0" 3, Event.ioctl 3 Cmd.RTC_RD_TIME none 0, Event.close 3,
               Event.close 4,
               Event.android_reboot RebootCmd.ANDROID_RB_RESTART2 0 "rtc"] })) := by
  have ha := alarm_get_time_rc w mktime .ALARM_TIME (some .alm_secs) st
  have hc := alarm_get_time_rc w mktime .RTC_TIME (some .thread_rtc_secs)
    (alarm_get_time w mktime .ALARM_TIME (some .alm_secs) st).2
  have hd := driver_rc w mktime fuel
    ((alarm_get_time w mktime .ALARM_TIME (some .alm_secs) st).2.alm_secs -
      (alarm_get_time w mktime .RTC_TIME (some .thread_rtc_secs)
        (alarm_get_time w mktime .ALARM_TIME (some .alm_secs) st).2).2.thread_rtc_secs)
    (alarm_get_time w mktime .RTC_TIME (some .thread_rtc_secs)
      (alarm_get_time w mktime .ALARM_TIME (some .alm_secs) st).2).2
  have hfr : (alarm_get_time w mktime .RTC_TIME (some .thread_rtc_secs)
      (alarm_get_time w mktime .ALARM_TIME (some .alm_secs) st).2).2.alm_secs =
      (alarm_get_time w mktime .ALARM_TIME (some .alm_secs) st).2.alm_secs :=
    alarm_get_time_frame w mktime .RTC_TIME .thread_rtc_secs .alm_secs _ (by decide)
  have hta : (alarm_get_time w mktime .ALARM_TIME (some .alm_secs) st).2.trace =
      st.trace ++ rtc_events w .ALARM_TIME st.calls := alarm_get_time_trace w mktime _ _ st
  have htc := alarm_get_time_trace w mktime .RTC_TIME .thread_rtc_secs
    (alarm_get_time w mktime .ALARM_TIME (some .alm_secs) st).2
  have hq := driver_no_reboot w mktime fuel
    ((alarm_get_time w mktime .ALARM_TIME (some .alm_secs) st).2.alm_secs -
      (alarm_get_time w mktime .RTC_TIME (some .thread_rtc_secs)
        (alarm_get_time w mktime .ALARM_TIME (some .alm_secs) st).2).2.thread_rtc_secs)
    (alarm_get_time w mktime .RTC_TIME (some .thread_rtc_secs)
      (alarm_get_time w mktime .ALARM_TIME (some .alm_secs) st).2).2
  simp only [thread_alarm_read, thread_current_read, thread_delay, thread_driver_call]
  refine ⟨?_, ?_, hfr, by decide, by decide⟩
  · rintro ⟨h1, h2, h3, h4, h5⟩
    have e : alarm_thread w mktime fuel st =
        (true, android_reboot RebootCmd.ANDROID_RB_RESTART2 0 "rtc"
          (alarm_set_reboot_time_and_wait w mktime fuel
            ((alarm_get_time w mktime .ALARM_TIME (some .alm_secs) st).2.alm_secs -
              (alarm_get_time w mktime .RTC_TIME (some .thread_rtc_secs)
                (alarm_get_time w mktime .ALARM_TIME (some .alm_secs) st).2).2.thread_rtc_secs)
            (alarm_get_time w mktime .RTC_TIME (some .thread_rtc_secs)
              (alarm_get_time w mktime .ALARM_TIME (some .alm_secs) st).2).2).2) := by
      simp only [alarm_thread]
      rw [if_neg (by rw [h1]; simp [h2]), if_neg (by rw [h3]; decide), hfr,
        if_neg (not_le.mpr h4)]
      simp only [h5]
      rfl
    refine ⟨e, ?_⟩
    rw [e]
    simp only [android_reboot, reboot_requests_append, hq, htc, hta,
      reboot_requests_rtc_events, List.append_nil]
    rfl
  · intro hn
    simp only [alarm_thread]
    split_ifs with c1 c2 c3
    · simp only [hta, reboot_requests_append, reboot_requests_rtc_events, List.append_nil]
    · simp only [htc, hta, reboot_requests_append, reboot_requests_rtc_events, List.append_nil]
    · simp only [htc, hta, reboot_requests_append, reboot_requests_rtc_events, List.append_nil]
    · have hquiet : reboot_requests (alarm_set_reboot_time_and_wait w mktime fuel
            ((alarm_get_time w mktime .ALARM_TIME (some .alm_secs) st).2.alm_secs -
              (alarm_get_time w mktime .RTC_TIME (some .thread_rtc_secs)
                (alarm_get_time w mktime .ALARM_TIME (some .alm_secs) st).2).2.thread_rtc_secs)
            (alarm_get_time w mktime .RTC_TIME (some .thread_rtc_secs)
              (alarm_get_time w mktime .ALARM_TIME (some .alm_secs) st).2).2).2.trace =
          reboot_requests st.trace := by
        simp only [hq, htc, hta, reboot_requests_append, reboot_requests_rtc_events,
          List.append_nil]
      rw [hfr] at c3
      rcases hd with h5 | h5 | h5
      · exfalso
        apply hn
        refine ⟨?_, ?_, ?_, not_le.mp c3, h5⟩
        · rcases ha with h | h
          · exact h
          · exact absurd (Or.inl (by rw [h]; decide)) c1
        · exact fun h => c1 (Or.inr h)
        · rcases hc with h | h
          · exact h
          · exact absurd (by rw [h]; decide) c2
      · rw [hfr]
        simp only [h5]
        exact hquiet
      · rw [hfr]
        simp only [h5]
        exact hquiet

/-- C2 at concrete inputs: the scenario ends in exactly one reboot request,
tagged `"rtc"`; the same run with a wait that fails with `EIO` while the clock
reads 2000 makes the driver report failure, and no reboot is requested. -/
theorem alarm_thread_reboot_iff_witness :
    reboot_requests (alarm_thread scenario_world (mktime_zone 0) 1 State.init).2.trace =
      reboot_requests State.init.trace ++ ["rtc"] ∧
    reboot_requests (alarm_thread wait_error_world (mktime_zone 0) 5 State.init).2.trace =
      reboot_requests State.init.trace :=
  ⟨((alarm_thread_reboot_iff scenario_world (mktime_zone 0) 1 State.init).1
      (by decide)).2,
   (alarm_thread_reboot_iff wait_error_world (mktime_zone 0) 5 State.init).2.1 (by decide)⟩

/-- C4: when the alarm read fails, or succeeds with the value 0, `alarm_thread`
returns at once: the only system calls of the run are those of that one read of
the alarm register, among which there is no read of the current time, no `open`
of the wake-alarm device, no arming, no wait and no reboot request. -/
theorem alarm_thread_no_alarm (w : World) (mktime : Mktime) (fuel : Nat) (st : State)
    (h : (thread_alarm_read w mktime st).1 < 0 ∨
      ((thread_alarm_read w mktime st).1 = 0 ∧ (thread_alarm_read w mktime st).2.alm_secs = 0)) :
    alarm_thread w mktime fuel st = (true, (thread_alarm_read w mktime st).2) ∧
    (alarm_thread w mktime fuel st).2.trace = st.trace ++ rtc_events w .ALARM_TIME st.calls ∧
    (rtc_events w .ALARM_TIME st.calls).all
      (fun e => !e.is_current_read && e.is_rtc_only) = true ∧
    reboot_requests (alarm_thread w mktime fuel st).2.trace = reboot_requests st.trace := by
  have e : alarm_thread w mktime fuel st = (true, (thread_alarm_read w mktime st).2) := by
    simp only [thread_alarm_read] at h
    simp only [alarm_thread, thread_alarm_read]
    rw [if_pos (h.imp id (fun h2 => h2.2))]
  have ht : (thread_alarm_read w mktime st).2.trace =
      st.trace ++ rtc_events w .ALARM_TIME st.calls := alarm_get_time_trace w mktime _ _ st
  refine ⟨e, by rw [e]; exact ht, ?_, ?_⟩
  · have h1 := rtc_events_rtc_only w .ALARM_TIME st.calls
    have h2 := alarm_read_no_current_read w st.calls
    rw [List.all_eq_true] at h1 h2 ⊢
    intro x hx
    rw [Bool.and_eq_true]
    exact ⟨h2 x hx, h1 x hx⟩
  · rw [e]
    show reboot_requests (thread_alarm_read w mktime st).2.trace = _
    rw [ht, reboot_requests_append, reboot_requests_rtc_events, List.append_nil]

/-- C4 at concrete inputs: an alarm register that reads as zero, and an RTC
device that cannot be opened. -/
theorem alarm_thread_no_alarm_witness :
    (alarm_thread (two_reads_world 0 1500) (mktime_zone 0) 1 State.init).2.trace =
      [Event.open_ "/dev/rtc0" 3, Event.ioctl 3 Cmd.RTC_ALM_READ none 0, Event.close 3] ∧
    (alarm_thread (script [fail_resp 2]) (mktime_zone 0) 1 State.init).2.trace =
      [Event.open_ "/dev/rtc0" (-1)] :=
  ⟨(alarm_thread_no_alarm (two_reads_world 0 1500) (mktime_zone 0) 1 State.init
      (Or.inr (by decide))).2.1,
   (alarm_thread_no_alarm (script [fail_resp 2]) (mktime_zone 0) 1 State.init
      (Or.inl (by decide))).2.1⟩

/-- C5: when both reads succeed, the alarm value is non-zero and the delay
`alarm_time - current_time` is not positive, `alarm_thread` returns without
calling the driver: the only system calls of the run are those of the two RTC
reads, so the wake-alarm device is not opened, no timer is armed, no wait is
issued and no reboot is requested. -/
theorem alarm_thread_elapsed (w : World) (mktime : Mktime) (fuel : Nat) (st : State)
    (ha : (thread_alarm_read w mktime st).1 = 0)
    (hz : (thread_alarm_read w mktime st).2.alm_secs ≠ 0)
    (hc : (thread_current_read w mktime st).1 = 0)
    (hd : thread_delay w mktime st ≤ 0) :
    alarm_thread w mktime fuel st = (true, (thread_current_read w mktime st).2) ∧
    (alarm_thread w mktime fuel st).2.trace =
      st.trace ++ (rtc_events w .ALARM_TIME st.calls ++
        rtc_events w .RTC_TIME (thread_alarm_read w mktime st).2.calls) ∧
    (rtc_events w .ALARM_TIME st.calls ++
      rtc_events w .RTC_TIME (thread_alarm_read w mktime st).2.calls).all
        Event.is_rtc_only = true ∧
    reboot_requests (alarm_thread w mktime fuel st).2.trace = reboot_requests st.trace := by
  have hfr : (thread_current_read w mktime st).2.alm_secs =
      (thread_alarm_read w mktime st).2.alm_secs :=
    alarm_get_time_frame w mktime .RTC_TIME .thread_rtc_secs .alm_secs _ (by decide)
  have e : alarm_thread w mktime fuel st = (true, (thread_current_read w mktime st).2) := by
    simp only [thread_alarm_read, thread_current_read, thread_delay] at ha hz hc hd hfr
    simp only [alarm_thread, thread_alarm_read, thread_current_read]
    rw [if_neg (by rw [ha]; simp [hz]), if_neg (by rw [hc]; decide), hfr, if_pos hd]
  have hta : (thread_alarm_read w mktime st).2.trace =
      st.trace ++ rtc_events w .ALARM_TIME st.calls := alarm_get_time_trace w mktime _ _ st
  have htc : (thread_current_read w mktime st).2.trace =
      (thread_alarm_read w mktime st).2.trace ++
        rtc_events w .RTC_TIME (thread_alarm_read w mktime st).2.calls :=
    alarm_get_time_trace w mktime _ _ _
  have ht : (thread_current_read w mktime st).2.trace =
      st.trace ++ (rtc_events w .ALARM_TIME st.calls ++
        rtc_events w .RTC_TIME (thread_alarm_read w mktime st).2.calls) := by
    rw [htc, hta, List.append_assoc]
  refine ⟨e, by rw [e]; exact ht, ?_, ?_⟩
  · rw [List.all_append, rtc_events_rtc_only, rtc_events_rtc_only]
    rfl
  · rw [e]
    show reboot_requests (thread_current_read w mktime st).2.trace = _
    rw [ht, reboot_requests_append, reboot_requests_append, reboot_requests_rtc_events,
      reboot_requests_rtc_events, List.append_nil, List.append_nil]

/-- C5 at the inputs of the specification: alarm 1000 with clock 1000, and alarm
1000 with clock 1500. -/
theorem alarm_thread_elapsed_witness :
    (alarm_thread (two_reads_world 1000 1000) (mktime_zone 0) 1 State.init).2.trace =
      [Event.open_ "/dev/rtc0" 3, Event.ioctl 3 Cmd.RTC_ALM_READ none 0, Event.close 3,
       Event.open_ "/dev/rtc0" 3, Event.ioctl 3 Cmd.RTC_RD_TIME none 0, Event.close 3] ∧
    (alarm_thread (two_reads_world 1000 1500) (mktime_zone 0) 1 State.init).2.trace =
      [Event.open_ "/dev/rtc0" 3, Event.ioctl 3 Cmd.RTC_ALM_READ none 0, Event.close 3,
       Event.open_ "/dev/rtc0" 3, Event.ioctl 3 Cmd.RTC_RD_TIME none 0, Event.close 3] :=
  ⟨(alarm_thread_elapsed (two_reads_world 1000 1000) (mktime_zone 0) 1 State.init
      (by decide) (by decide) (by decide) (by decide)).2.1,
   (alarm_thread_elapsed (two_reads_world 1000 1500) (mktime_zone 0) 1 State.init
      (by decide) (by decide) (by decide) (by decide)).2.1⟩

/-! ## The Wake Timer Driver -/

/-- C3: the driver evaluated on a run whose first wait fails with `EIO` (not
`EINTR`) while the clock reads 1990 against the stored alarm value 2000.  The
failed wait does not end the call: after one iteration the driver is still in
its loop, having only consulted the validator, and it then issues a second
wait; when that one returns 1 with the clock at 2000, the driver returns 0
(success). -/
theorem wait_error_is_retried :
    alarm_set_reboot_time_and_wait hard_error_world (mktime_zone 0) 1 500
        (state_with_alarm 2000) =
      (none,
        { alm_secs := 2000, thread_rtc_secs := 0, expired_rtc_secs := 1990, errno := 5,
          calls := 6,
          trace :=
            [Event.open_ "/dev/alarm" 4, Event.ioctl 4 Cmd.ANDROID_ALARM_GET_TIME none 0,
             Event.ioctl 4 Cmd.ANDROID_ALARM_SET (some ⟨600, 0⟩) 0,
             Event.ioctl 4 Cmd.ANDROID_ALARM_WAIT none (-1),
             Event.open_ "/dev/rtc0" 3, Event.ioctl 3 Cmd.RTC_RD_TIME none 0,
             Event.close 3] }) ∧
    alarm_set_reboot_time_and_wait hard_error_world (mktime_zone 0) 2 500
        (state_with_alarm 2000) =
      (some 0,
        { alm_secs := 2000, thread_rtc_secs := 0, expired_rtc_secs := 2000, errno := 5,
          calls := 9,
          trace :=
            [Event.open_ "/dev/alarm" 4, Event.ioctl 4 Cmd.ANDROID_ALARM_GET_TIME none 0,
             Event.ioctl 4 Cmd.ANDROID_ALARM_SET (some ⟨600, 0⟩) 0,
             Event.ioctl 4 Cmd.ANDROID_ALARM_WAIT none (-1),
             Event.open_ "/dev/rtc0" 3, Event.ioctl 3 Cmd.RTC_RD_TIME none 0,
             Event.close 3,
             Event.ioctl 4 Cmd.ANDROID_ALARM_WAIT none 1,
             Event.open_ "/dev/rtc0" 3, Event.ioctl 3 Cmd.RTC_RD_TIME none 0,
             Event.close 3,
             Event.close 4] }) := by
  constructor <;> decide

/-- C7: the driver never confirms a spurious wake.  Whenever it returns `0`, the
last wait request of the run returned a strictly positive value and the
validator, called right after that request, answered `1`; the only calls after
that are the validator's RTC read and the `close` of the descriptor.  And in
every iteration of the loop in which the wait request returns a strictly
positive value while the validator answers `0`, the loop goes on: the next call
after the validator's read is another wait request. -/
theorem driver_never_confirms_spurious_wake (w : World) (mktime : Mktime) :
    (∀ (fuel : Nat) (secs : Int) (st st1 : State),
      alarm_set_reboot_time_and_wait w mktime fuel secs st = (some 0, st1) →
      ∃ s : State,
        0 < (w s.calls).rc ∧
        (alarm_is_alm_expired w mktime
          (sys_ioctl w (w st.calls).rc Cmd.ANDROID_ALARM_WAIT none s).2).1 = 1 ∧
        st1 = sys_close (w st.calls).rc (alarm_is_alm_expired w mktime
          (sys_ioctl w (w st.calls).rc Cmd.ANDROID_ALARM_WAIT none s).2).2 ∧
        st1.trace = s.trace ++
          (Event.ioctl (w st.calls).rc Cmd.ANDROID_ALARM_WAIT none (w s.calls).rc ::
            (rtc_events w .RTC_TIME (s.calls + 1) ++ [Event.close (w st.calls).rc])) ∧
        (rtc_events w .RTC_TIME (s.calls + 1) ++ [Event.close (w st.calls).rc]).all
          (fun e => !e.is_wait) = true) ∧
    (∀ (fd : Int) (fuel : Nat) (s : State),
      0 < (w s.calls).rc →
      (alarm_is_alm_expired w mktime (sys_ioctl w fd Cmd.ANDROID_ALARM_WAIT none s).2).1 = 0 →
      wait_loop w mktime fd (fuel + 1) s =
        wait_loop w mktime fd fuel
          (alarm_is_alm_expired w mktime (sys_ioctl w fd Cmd.ANDROID_ALARM_WAIT none s).2).2 ∧
      ∃ tail, (wait_loop w mktime fd (fuel + 2) s).2.trace = s.trace ++
        (Event.ioctl fd Cmd.ANDROID_ALARM_WAIT none (w s.calls).rc ::
          (rtc_events w .RTC_TIME (s.calls + 1) ++
            Event.ioctl fd Cmd.ANDROID_ALARM_WAIT none
              (w (alarm_is_alm_expired w mktime
                (sys_ioctl w fd Cmd.ANDROID_ALARM_WAIT none s).2).2.calls).rc :: tail))) := by
  constructor
  · intro fuel secs st st1 h
    by_cases c0 : (w st.calls).rc < 0
    · rw [driver_open_failed w mktime fuel secs st c0] at h
      simp at h
    by_cases c1 : (w (st.calls + 1)).rc < 0
    · rw [driver_get_failed w mktime fuel secs st (by omega) c1] at h
      simp at h
    by_cases c2 : (w (st.calls + 2)).rc < 0
    · rw [driver_set_failed w mktime fuel secs st (by omega) (by omega) c2] at h
      simp at h
    rw [driver_armed w mktime fuel secs st (by omega) (by omega) (by omega)] at h
    generalize hl : wait_loop w mktime (w st.calls).rc fuel (armed_state w secs st) = l at h
    obtain ⟨lrc, lst⟩ := l
    cases lrc with
    | none => simp at h
    | some rc =>
      simp only at h
      split_ifs at h with c3
      · simp at h
      · simp only [Prod.mk.injEq, true_and] at h
        obtain ⟨s, hs1, _, hs3, hs4⟩ := wait_loop_exit w mktime _ fuel _ lst rc hl
        refine ⟨s, by omega, hs3, by rw [← h, hs4], ?_, ?_⟩
        · rw [← h, hs4]
          simp only [sys_close, alarm_is_alm_expired_trace]
          simp [sys_ioctl, State.after]
        · have h1 := rtc_events_rtc_only w .RTC_TIME (s.calls + 1)
          rw [List.all_append]
          rw [List.all_eq_true] at h1
          rw [Bool.and_eq_true]
          refine ⟨?_, rfl⟩
          rw [List.all_eq_true]
          intro x hx
          have h2 := h1 x hx
          simp only [Event.is_rtc_only, Bool.and_eq_true] at h2
          exact h2.1.2
  · intro fd fuel s hpos he
    have hni : ¬ ((w s.calls).rc < 0 ∧ (w s.calls).errno = EINTR) := fun hc => by omega
    have e1 := wait_loop_not_expired w mktime fd fuel s hni he
    refine ⟨e1, ?_⟩
    rw [wait_loop_not_expired w mktime fd (fuel + 1) s hni he]
    obtain ⟨tail, ht⟩ := wait_loop_first w mktime fd fuel
      (alarm_is_alm_expired w mktime (sys_ioctl w fd Cmd.ANDROID_ALARM_WAIT none s).2).2
    refine ⟨tail, ?_⟩
    rw [ht, alarm_is_alm_expired_trace]
    simp [sys_ioctl, State.after]

/-- C7 at concrete inputs, with the stored alarm value 2000: the first wait
returns 1 while the clock reads 1990, and the driver issues a second wait; that
one returns 1 with the clock at 2000, and the driver returns 0. -/
theorem driver_never_confirms_spurious_wake_witness :
    (∃ tail, (wait_loop spurious_wake_world (mktime_zone 0) 4 2
        (armed_state spurious_wake_world 500 (state_with_alarm 2000))).2.trace =
      (armed_state spurious_wake_world 500 (state_with_alarm 2000)).trace ++
        (Event.ioctl 4 Cmd.ANDROID_ALARM_WAIT none 1 ::
          (rtc_events spurious_wake_world .RTC_TIME 4 ++
            Event.ioctl 4 Cmd.ANDROID_ALARM_WAIT none 1 :: tail))) ∧
    (∃ s : State,
      0 < (spurious_wake_world s.calls).rc ∧
      (alarm_is_alm_expired spurious_wake_world (mktime_zone 0)
        (sys_ioctl spurious_wake_world (spurious_wake_world (state_with_alarm 2000).calls).rc
          Cmd.ANDROID_ALARM_WAIT none s).2).1 = 1 ∧
      (alarm_set_reboot_time_and_wait spurious_wake_world (mktime_zone 0) 2 500
          (state_with_alarm 2000)).2 =
        sys_close (spurious_wake_world (state_with_alarm 2000).calls).rc
          (alarm_is_alm_expired spurious_wake_world (mktime_zone 0)
            (sys_ioctl spurious_wake_world (spurious_wake_world (state_with_alarm 2000).calls).rc
              Cmd.ANDROID_ALARM_WAIT none s).2).2 ∧
      (alarm_set_reboot_time_and_wait spurious_wake_world (mktime_zone 0) 2 500
          (state_with_alarm 2000)).2.trace = s.trace ++
        (Event.ioctl (spurious_wake_world (state_with_alarm 2000).calls).rc
            Cmd.ANDROID_ALARM_WAIT none (spurious_wake_world s.calls).rc ::
          (rtc_events spurious_wake_world .RTC_TIME (s.calls + 1) ++
            [Event.close (spurious_wake_world (state_with_alarm 2000).calls).rc])) ∧
      (rtc_events spurious_wake_world .RTC_TIME (s.calls + 1) ++
        [Event.close (spurious_wake_world (state_with_alarm 2000).calls).rc]).all
          (fun e => !e.is_wait) = true) :=
  ⟨((driver_never_confirms_spurious_wake spurious_wake_world (mktime_zone 0)).2 4 0
      (armed_state spurious_wake_world 500 (state_with_alarm 2000))
      (by decide) (by decide)).2,
   (driver_never_confirms_spurious_wake spurious_wake_world (mktime_zone 0)).1 2 500
      (state_with_alarm 2000)
      (alarm_set_reboot_time_and_wait spurious_wake_world (mktime_zone 0) 2 500
        (state_with_alarm 2000)).2 (by decide)⟩

/-- C8: in every run of the driver with delay `d` in which the device opens and
the elapsed-realtime request returns `(s, ns)`, the first three calls are the
`open`, that request and the arming request with the deadline `(s + d, 0)`; no
later call of the run is an arming request, so the timer is armed exactly once
(`arms` lists the arming requests made), before any wait.  And in every
iteration of the loop in which the wait request fails with `EINTR`, the next
call is another wait request: nothing is armed and the RTC is not read in
between. -/
theorem driver_arms_once (w : World) (mktime : Mktime) :
    (∀ (fuel : Nat) (d : Int) (st : State),
      0 ≤ (w st.calls).rc → 0 ≤ (w (st.calls + 1)).rc →
      (∃ tail, (alarm_set_reboot_time_and_wait w mktime fuel d st).2.trace = st.trace ++
          ([Event.open_ "/dev/alarm" (w st.calls).rc,
            Event.ioctl (w st.calls).rc Cmd.ANDROID_ALARM_GET_TIME none (w (st.calls + 1)).rc,
            Event.ioctl (w st.calls).rc Cmd.ANDROID_ALARM_SET
              (some { tv_sec := (w (st.calls + 1)).ts.tv_sec + d, tv_nsec := 0 })
              (w (st.calls + 2)).rc] ++ tail) ∧
        arms tail = []) ∧
      arms (alarm_set_reboot_time_and_wait w mktime fuel d st).2.trace =
        arms st.trace ++ [{ tv_sec := (w (st.calls + 1)).ts.tv_sec + d, tv_nsec := 0 }]) ∧
    (∀ (fd : Int) (fuel : Nat) (s : State),
      (w s.calls).rc < 0 → (w s.calls).errno = EINTR →
      ∃ tail, (wait_loop w mktime fd (fuel + 2) s).2.trace = s.trace ++
        (Event.ioctl fd Cmd.ANDROID_ALARM_WAIT none (w s.calls).rc ::
          Event.ioctl fd Cmd.ANDROID_ALARM_WAIT none (w (s.calls + 1)).rc :: tail)) := by
  constructor
  · intro fuel d st h0 h1
    have key : ∃ tail, (alarm_set_reboot_time_and_wait w mktime fuel d st).2.trace = st.trace ++
          ([Event.open_ "/dev/alarm" (w st.calls).rc,
            Event.ioctl (w st.calls).rc Cmd.ANDROID_ALARM_GET_TIME none (w (st.calls + 1)).rc,
            Event.ioctl (w st.calls).rc Cmd.ANDROID_ALARM_SET
              (some { tv_sec := (w (st.calls + 1)).ts.tv_sec + d, tv_nsec := 0 })
              (w (st.calls + 2)).rc] ++ tail) ∧
        arms tail = [] := by
      by_cases c2 : (w (st.calls + 2)).rc < 0
      · rw [driver_set_failed w mktime fuel d st h0 h1 c2]
        refine ⟨[Event.close (w st.calls).rc], ?_, rfl⟩
        simp only [sys_close, armed_state_trace, List.append_assoc]
      · rw [driver_armed w mktime fuel d st h0 h1 (by omega)]
        obtain ⟨evs, hev, _, hq⟩ := wait_loop_quiet w mktime (w st.calls).rc fuel
          (armed_state w d st)
        rw [armed_state_trace] at hev
        split
        · exact ⟨evs, by rw [hev, List.append_assoc], hq⟩
        · split_ifs
          · refine ⟨evs ++ [Event.close (w st.calls).rc], ?_, by rw [arms_append, hq]; rfl⟩
            simp only [sys_close, hev, List.append_assoc]
          · refine ⟨evs ++ [Event.close (w st.calls).rc], ?_, by rw [arms_append, hq]; rfl⟩
            simp only [sys_close, hev, List.append_assoc]
    refine ⟨key, ?_⟩
    obtain ⟨tail, ht, hq⟩ := key
    rw [ht, arms_append, arms_append, hq]
    rfl
  · intro fd fuel s hneg herr
    rw [wait_loop_eintr w mktime fd (fuel + 1) s ⟨hneg, herr⟩]
    obtain ⟨tail, ht⟩ := wait_loop_first w mktime fd fuel
      (sys_ioctl w fd Cmd.ANDROID_ALARM_WAIT none s).2
    refine ⟨tail, ?_⟩
    rw [ht]
    simp [sys_ioctl, State.after]

/-- C8 at concrete inputs: delay 500 with elapsed realtime `(100, 7)` arms the
deadline `(600, 0)`, once; and an interrupted wait is followed directly by the
second wait. -/
theorem driver_arms_once_witness :
    arms (alarm_set_reboot_time_and_wait interrupted_world (mktime_zone 0) 2 500
        (state_with_alarm 2000)).2.trace =
      arms (state_with_alarm 2000).trace ++ [{ tv_sec := 100 + 500, tv_nsec := 0 }] ∧
    (∃ tail, (wait_loop interrupted_world (mktime_zone 0) 4 2
        (armed_state interrupted_world 500 (state_with_alarm 2000))).2.trace =
      (armed_state interrupted_world 500 (state_with_alarm 2000)).trace ++
        (Event.ioctl 4 Cmd.ANDROID_ALARM_WAIT none (-1) ::
          Event.ioctl 4 Cmd.ANDROID_ALARM_WAIT none 1 :: tail)) :=
  ⟨((driver_arms_once interrupted_world (mktime_zone 0)).1 2 500 (state_with_alarm 2000)
      (by decide) (by decide)).2,
   (driver_arms_once interrupted_world (mktime_zone 0)).2 4 0
      (armed_state interrupted_world 500 (state_with_alarm 2000)) (by decide) (by decide)⟩

/-! ## Device handles and the stored alarm value -/

/-- C9: device handles are released on every exit path.  `alarm_get_time` makes
no call when its pointer is null; when its `open` fails it makes no other call,
so no `close`; when its `open` succeeds, the `open` is followed by one request
and one `close` of that descriptor.  Whenever the driver returns, with success
or failure: when its `open` failed, that `open` is its only call; when it
succeeded, the calls of the run are the `open`, calls that are balanced among
themselves (the RTC reads of the validator) and, last, the one `close` of the
descriptor.  In both functions the handles held are the same after the call as
before it. -/
theorem handles_released (w : World) (mktime : Mktime) :
    (∀ (tt : alarm_time_type) (st : State),
      (alarm_get_time w mktime tt none st).2.trace = st.trace ∧
      ∀ p : TimeVar,
        ((w st.calls).rc < 0 →
          (alarm_get_time w mktime tt (some p) st).2.trace =
            st.trace ++ [Event.open_ "/dev/rtc0" (w st.calls).rc]) ∧
        (0 ≤ (w st.calls).rc →
          ∃ cmd, (alarm_get_time w mktime tt (some p) st).2.trace =
            st.trace ++ [Event.open_ "/dev/rtc0" (w st.calls).rc,
              Event.ioctl (w st.calls).rc cmd none (w (st.calls + 1)).rc,
              Event.close (w st.calls).rc]) ∧
        ∀ held : List Int, ∃ evs,
          (alarm_get_time w mktime tt (some p) st).2.trace = st.trace ++ evs ∧
          track held evs = some held) ∧
    (∀ (fuel : Nat) (secs : Int) (st st1 : State) (rc : Int),
      alarm_set_reboot_time_and_wait w mktime fuel secs st = (some rc, st1) →
      ((w st.calls).rc < 0 →
        st1.trace = st.trace ++ [Event.open_ "/dev/alarm" (w st.calls).rc]) ∧
      (0 ≤ (w st.calls).rc →
        ∃ mid, st1.trace = st.trace ++
            (Event.open_ "/dev/alarm" (w st.calls).rc ::
              (mid ++ [Event.close (w st.calls).rc])) ∧
          track [] mid = some []) ∧
      ∀ held : List Int, ∃ evs, st1.trace = st.trace ++ evs ∧ track held evs = some held) := by
  constructor
  · intro tt st
    refine ⟨rfl, fun p => ⟨?_, ?_, ?_⟩⟩
    · intro h
      rw [alarm_get_time_trace]
      simp only [rtc_events, if_pos h]
    · intro h
      refine ⟨match tt with
        | .ALARM_TIME => Cmd.RTC_ALM_READ
        | .RTC_TIME => Cmd.RTC_RD_TIME, ?_⟩
      rw [alarm_get_time_trace]
      simp only [rtc_events, if_neg (not_lt.mpr h)]
    · intro held
      exact ⟨_, alarm_get_time_trace w mktime tt p st,
        track_lift_nil held _ (track_rtc_events w tt st.calls)⟩
  · intro fuel secs st st1 rc h
    by_cases c0 : (w st.calls).rc < 0
    · rw [driver_open_failed w mktime fuel secs st c0] at h
      simp only [Prod.mk.injEq] at h
      have ht : st1.trace = st.trace ++ [Event.open_ "/dev/alarm" (w st.calls).rc] := by
        rw [← h.2]; rfl
      refine ⟨fun _ => ht, fun h0 => absurd h0 (not_le.mpr c0), fun held => ⟨_, ht, ?_⟩⟩
      rw [track, if_pos c0]
      rfl
    have h0 : 0 ≤ (w st.calls).rc := not_lt.mp c0
    have key : ∃ mid, st1.trace = st.trace ++
            (Event.open_ "/dev/alarm" (w st.calls).rc ::
              (mid ++ [Event.close (w st.calls).rc])) ∧
          track [] mid = some [] := by
      by_cases c1 : (w (st.calls + 1)).rc < 0
      · rw [driver_get_failed w mktime fuel secs st h0 c1] at h
        simp only [Prod.mk.injEq] at h
        refine ⟨[Event.ioctl (w st.calls).rc Cmd.ANDROID_ALARM_GET_TIME none
          (w (st.calls + 1)).rc], ?_, rfl⟩
        rw [← h.2]
        simp [sys_close, sys_ioctl, sys_open, State.after]
      by_cases c2 : (w (st.calls + 2)).rc < 0
      · rw [driver_set_failed w mktime fuel secs st h0 (by omega) c2] at h
        simp only [Prod.mk.injEq] at h
        refine ⟨[Event.ioctl (w st.calls).rc Cmd.ANDROID_ALARM_GET_TIME none
            (w (st.calls + 1)).rc,
          Event.ioctl (w st.calls).rc Cmd.ANDROID_ALARM_SET
            (some { tv_sec := (w (st.calls + 1)).ts.tv_sec + secs, tv_nsec := 0 })
            (w (st.calls + 2)).rc], ?_, rfl⟩
        rw [← h.2]
        simp only [sys_close, armed_state_trace]
        simp
      rw [driver_armed w mktime fuel secs st h0 (by omega) (by omega)] at h
      obtain ⟨evs, hev, hq, _⟩ := wait_loop_quiet w mktime (w st.calls).rc fuel
        (armed_state w secs st)
      rw [armed_state_trace] at hev
      have hmid : track [] ([Event.ioctl (w st.calls).rc Cmd.ANDROID_ALARM_GET_TIME none
            (w (st.calls + 1)).rc,
          Event.ioctl (w st.calls).rc Cmd.ANDROID_ALARM_SET
            (some { tv_sec := (w (st.calls + 1)).ts.tv_sec + secs, tv_nsec := 0 })
            (w (st.calls + 2)).rc] ++ evs) = some [] :=
        track_balanced_append _ _ rfl hq
      have hclose : (sys_close (w st.calls).rc
          (wait_loop w mktime (w st.calls).rc fuel (armed_state w secs st)).2).trace =
          st.trace ++ (Event.open_ "/dev/alarm" (w st.calls).rc ::
            (([Event.ioctl (w st.calls).rc Cmd.ANDROID_ALARM_GET_TIME none
                (w (st.calls + 1)).rc,
              Event.ioctl (w st.calls).rc Cmd.ANDROID_ALARM_SET
                (some { tv_sec := (w (st.calls + 1)).ts.tv_sec + secs, tv_nsec := 0 })
                (w (st.calls + 2)).rc] ++ evs) ++ [Event.close (w st.calls).rc])) := by
        simp only [sys_close, hev]
        simp
      split at h
      · simp at h
      · split_ifs at h
        · simp only [Prod.mk.injEq] at h
          exact ⟨_, by rw [← h.2]; exact hclose, hmid⟩
        · simp only [Prod.mk.injEq] at h
          exact ⟨_, by rw [← h.2]; exact hclose, hmid⟩
    refine ⟨fun hneg => absurd hneg c0, fun _ => key, fun held => ?_⟩
    obtain ⟨mid, ht, hm⟩ := key
    exact ⟨_, ht, track_bracket held _ _ mid h0 hm⟩

/-- C9 at concrete inputs: the driver's run with a spurious wake followed by the
confirmed one returns, and its calls are balanced. -/
theorem handles_released_witness :
    (∃ mid, (alarm_set_reboot_time_and_wait spurious_wake_world (mktime_zone 0) 2 500
          (state_with_alarm 2000)).2.trace = (state_with_alarm 2000).trace ++
            (Event.open_ "/dev/alarm" (spurious_wake_world (state_with_alarm 2000).calls).rc ::
              (mid ++ [Event.close (spurious_wake_world (state_with_alarm 2000).calls).rc])) ∧
          track [] mid = some []) ∧
    track [] (alarm_set_reboot_time_and_wait spurious_wake_world (mktime_zone 0) 2 500
      (state_with_alarm 2000)).2.trace = some [] :=
  ⟨((handles_released spurious_wake_world (mktime_zone 0)).2 2 500 (state_with_alarm 2000)
      (alarm_set_reboot_time_and_wait spurious_wake_world (mktime_zone 0) 2 500
        (state_with_alarm 2000)).2 0 (by decide)).2.1 (by decide),
   by decide⟩

/-- C10: `alm_secs` is not written after the read of the alarm register.  The
later read of the current time made by `alarm_thread`, every call of
`alarm_is_alm_expired` and the whole of `alarm_set_reboot_time_and_wait` leave
it unchanged, so that it still holds the value read from the alarm register
when `alarm_thread` ends or the fuel runs out; the delay is computed from that
value; and the wait loop behaves as the loop in which every validator check is
handed, as the reference, the value `alm_secs` had when the loop was entered. -/
theorem alm_secs_not_mutated (w : World) (mktime : Mktime) (fuel : Nat) (st : State) :
    (thread_current_read w mktime st).2.alm_secs = (thread_alarm_read w mktime st).2.alm_secs ∧
    (alarm_is_alm_expired w mktime st).2.alm_secs = st.alm_secs ∧
    (∀ secs : Int,
      (alarm_set_reboot_time_and_wait w mktime fuel secs st).2.alm_secs = st.alm_secs) ∧
    (alarm_thread w mktime fuel st).2.alm_secs = (thread_alarm_read w mktime st).2.alm_secs ∧
    thread_delay w mktime st = (thread_alarm_read w mktime st).2.alm_secs -
      (thread_current_read w mktime st).2.thread_rtc_secs ∧
    (∀ secs : Int, (armed_state w secs (thread_current_read w mktime st).2).alm_secs =
      (thread_alarm_read w mktime st).2.alm_secs) ∧
    (∀ fd : Int, wait_loop w mktime fd fuel st = wait_loop_ref w mktime st.alm_secs fd fuel st) ∧
    (∀ fd : Int, (wait_loop w mktime fd fuel st).2.alm_secs = st.alm_secs) := by
  have hfr : (thread_current_read w mktime st).2.alm_secs =
      (thread_alarm_read w mktime st).2.alm_secs :=
    alarm_get_time_frame w mktime .RTC_TIME .thread_rtc_secs .alm_secs _ (by decide)
  refine ⟨hfr, alarm_is_alm_expired_alm_secs w mktime st,
    fun secs => driver_alm_secs w mktime fuel secs st, ?_, rfl, fun secs => hfr,
    fun fd => wait_loop_eq_ref w mktime fd fuel st,
    fun fd => wait_loop_alm_secs w mktime fd fuel st⟩
  simp only [thread_alarm_read, thread_current_read] at hfr ⊢
  have hd := driver_alm_secs w mktime fuel
    ((alarm_get_time w mktime .RTC_TIME (some .thread_rtc_secs)
        (alarm_get_time w mktime .ALARM_TIME (some .alm_secs) st).2).2.alm_secs -
      (alarm_get_time w mktime .RTC_TIME (some .thread_rtc_secs)
        (alarm_get_time w mktime .ALARM_TIME (some .alm_secs) st).2).2.thread_rtc_secs)
    (alarm_get_time w mktime .RTC_TIME (some .thread_rtc_secs)
      (alarm_get_time w mktime .ALARM_TIME (some .alm_secs) st).2).2
  simp only [alarm_thread]
  split_ifs
  · rfl
  · exact hfr
  · exact hfr
  · split
    · exact hd.trans hfr
    · split_ifs
      · exact hd.trans hfr
      · exact hd.trans hfr

end HealthdAlarm
